import Mathlib

/-!
# usb_dev_bulk.c: bulk echo engine and WinUSB auto-install control dispatch

A shallow embedding of `src/usb_dev_bulk/usb_dev_bulk.c`.

Conventions of the embedding.

* `unsigned char` values are `Nat`s below `256`; `unsigned long` and `unsigned`
  values are `Nat`s below `2 ^ 32`; `unsigned short` fields are `Nat`s below
  `2 ^ 16`.  Arithmetic that can leave the range is reduced explicitly.
* A C array is a `List Nat`; a read is `List.getD _ _ 0` and a write is
  `List.set`.  An access outside the array is undefined in C, so the theorems
  about buffers carry the index bounds as hypotheses.
* Calls into the USB library that drive endpoint 0 are recorded as a list of
  `EP0Action`s in program order.  The `UARTprintf` debug output is not recorded.
* Constants and functions that `usb_dev_bulk.c` takes from headers that are not
  part of the source file (`BULK_BUFFER_SIZE`, the `USB_RTYPE_*` masks, the ring
  buffer library) are parameters of the definitions that use them.
-/

namespace UsbDevBulk

/-! ## Echo engine -/

/-- The range of `unsigned long` on the target (32 bits). -/
def ULONG_RANGE : Nat := 2 ^ 32

/-- The byte stored into `g_pucUSBTxBuffer[ulWriteIndex]` by one iteration of the
loop of `EchoNewDataToHost` (lines 248-278) when `g_pucUSBRxBuffer[ulReadIndex]`
holds `b`.  The operand is promoted to `int`, so the subtraction is an `Int`
subtraction; the assignment to an `unsigned char` reduces modulo `256`. -/
def echoByte (b : Nat) : Nat :=
  if 97 ≤ b ∧ b <= 122 then
    ((((b : Int) - 97) + 65) % 256).toNat
  else if 65 ≤ b ∧ b <= 90 then
    ((((b : Int) - 90) + 122) % 256).toNat
  else
    b % 256


/-- The two statements that advance an index of the loop of `EchoNewDataToHost`
(lines 284-285 for `ulWriteIndex`, lines 287-288 for `ulReadIndex`): a 32-bit
increment followed by `(i == BULK_BUFFER_SIZE) ? 0 : i`. -/
def nextIndex (BULK_BUFFER_SIZE i : Nat) : Nat :=
  let i1 := (i + 1) % ULONG_RANGE
  if i1 = BULK_BUFFER_SIZE then 0 else i1

/-- The `while(ulLoop)` loop of `EchoNewDataToHost` (lines 238-291).  The
arguments are `ulLoop`, `ulReadIndex`, `ulWriteIndex` and the current contents
of `g_pucUSBTxBuffer`; the result is the contents of `g_pucUSBTxBuffer` when the
loop exits.  `rx` is `g_pucUSBRxBuffer`, which the loop only reads. -/
def echoLoop (BULK_BUFFER_SIZE : Nat) (rx : List Nat) : Nat → Nat → Nat → List Nat → List Nat
  | 0, _, _, tx => tx
  | ulLoop + 1, ulReadIndex, ulWriteIndex, tx =>
      echoLoop BULK_BUFFER_SIZE rx ulLoop
        (nextIndex BULK_BUFFER_SIZE ulReadIndex)
        (nextIndex BULK_BUFFER_SIZE ulWriteIndex)
        (tx.set ulWriteIndex (echoByte (rx.getD ulReadIndex 0)))

/-- Modelled from the spec: the type `tUSBRingBufObject` is declared in the USB
library headers, which are not part of the source file.  The spec's data model
gives a ring buffer a write index and a read index, both taken modulo the
capacity; `usb_dev_bulk.c` itself reads the field `ulWriteIndex` (line 236). -/
structure tUSBRingBufObject where
  ulWriteIndex : Nat
  ulReadIndex : Nat
  deriving DecidableEq, Repr

/-- The global variables of `usb_dev_bulk.c` that the bulk channel handlers read
or write: the two byte counters (lines 99-100), the configured flag (line 146),
the backing arrays `g_pucUSBRxBuffer` and `g_pucUSBTxBuffer` and the ring buffer
state of `g_sTxBuffer` and `g_sRxBuffer`. -/
structure Globals where
  g_ulTxCount : Nat
  g_ulRxCount : Nat
  g_bUSBConfigured : Bool
  g_pucUSBRxBuffer : List Nat
  g_pucUSBTxBuffer : List Nat
  g_sTxBuffer : tUSBRingBufObject
  g_sRxBuffer : tUSBRingBufObject
  deriving DecidableEq, Repr

/-- Modelled from the spec: `USBBufferInfoGet` belongs to the USB library and is
not part of the source file.  It hands the caller a copy of the ring buffer
object of the buffer (the spec's "writable window"). -/
def USBBufferInfoGet (b : tUSBRingBufObject) : tUSBRingBufObject := b

/-- Modelled from the spec: `USBBufferDataWritten` belongs to the USB library and
is not part of the source file.  The spec describes it as the commit operation
that advances the write cursor of the ring buffer by the number of bytes
written, the cursor being taken modulo the capacity. -/
def USBBufferDataWritten (BULK_BUFFER_SIZE : Nat) (b : tUSBRingBufObject) (ulLength : Nat) :
    tUSBRingBufObject :=
  { b with ulWriteIndex := (b.ulWriteIndex + ulLength) % BULK_BUFFER_SIZE }

/-- `EchoNewDataToHost` (lines 195-307).  `BULK_BUFFER_SIZE` is the constant of
`usb_bulk_structs.h`; `ulSpace` is the value returned by
`USBBufferSpaceAvailable(&g_sTxBuffer)` at line 214; `pcData` is the pointer
argument expressed as its offset from `g_pucUSBRxBuffer`, so that line 235
computes `ulReadIndex` from it.  The unused argument `psDevice` is left out.
The result is the return value together with the globals after the call. -/
def EchoNewDataToHost (BULK_BUFFER_SIZE ulSpace : Nat) (g : Globals) (pcData ulNumBytes : Nat) :
    Nat × Globals :=
  let sTxRing := USBBufferInfoGet g.g_sTxBuffer
  let ulLoop := if ulSpace < ulNumBytes then ulSpace else ulNumBytes
  let ulCount := ulLoop
  let g1 := { g with g_ulRxCount := (g.g_ulRxCount + ulNumBytes) % ULONG_RANGE }
  let ulReadIndex := pcData % ULONG_RANGE
  let ulWriteIndex := sTxRing.ulWriteIndex
  let g2 := { g1 with
    g_pucUSBTxBuffer :=
      echoLoop BULK_BUFFER_SIZE g1.g_pucUSBRxBuffer ulLoop ulReadIndex ulWriteIndex
        g1.g_pucUSBTxBuffer }
  let g3 := { g2 with
    g_sTxBuffer := USBBufferDataWritten BULK_BUFFER_SIZE g2.g_sTxBuffer ulCount }
  (ulCount, g3)

/-! ## WinUSB auto-install: endpoint 0 -/

/-- The fields of `tUSBRequest` that `usb_dev_bulk.c` reads; the type is declared
in the USB library headers.  `bmRequestType` and `bRequest` are bytes, the other
three are 16-bit values. -/
structure tUSBRequest where
  bmRequestType : Nat
  bRequest : Nat
  wValue : Nat
  wIndex : Nat
  wLength : Nat
  deriving DecidableEq, Repr

/-- The request type constants of the USB library headers that
`DispatchVendorRequest` uses.  Their values are not part of the source file, so
the dispatcher takes them as a parameter. -/
structure RTypeConsts where
  USB_RTYPE_TYPE_M : Nat
  USB_RTYPE_VENDOR : Nat
  USB_RTYPE_RECIPIENT_M : Nat
  USB_RTYPE_DEVICE : Nat
  USB_RTYPE_INTERFACE : Nat
  deriving DecidableEq, Repr

/-- The values the USB 2.0 specification assigns to the fields of
`bmRequestType`: type mask `0x60`, vendor type `0x40`, recipient mask `0x1F`,
recipient device `0`, recipient interface `1`. -/
def usb20 : RTypeConsts :=
  { USB_RTYPE_TYPE_M := 0x60, USB_RTYPE_VENDOR := 0x40, USB_RTYPE_RECIPIENT_M := 0x1F,
    USB_RTYPE_DEVICE := 0x00, USB_RTYPE_INTERFACE := 0x01 }

/-- The calls of `usb_dev_bulk.c` that act on endpoint 0, in the order in which a
handler makes them: `MAP_USBDevEndpointDataAck(USB0_BASE, USB_EP_0, false)`,
`USBDCDSendDataEP0(0, pucData, ulSize)` and `USBDCDStallEP0(0)`. -/
inductive EP0Action where
  | USBDevEndpointDataAck
  | USBDCDSendDataEP0 (pucData : List Nat) (ulSize : Nat)
  | USBDCDStallEP0
  deriving DecidableEq, Repr

/-- The bytes a call puts on the wire: `USBDCDSendDataEP0` transmits the first
`ulSize` bytes found at `pucData`; the other calls transmit nothing. -/
def EP0Action.wireBytes : EP0Action → List Nat
  | .USBDCDSendDataEP0 pucData ulSize => pucData.take ulSize
  | _ => []

/-- Line 446. -/
def MS_OS_STRING_DESCRIPTOR : Nat := 0xEE

/-- Line 453. -/
def VENDOR_REQUEST_GET_MS_OS_DESCRIPTOR : Nat := 7

/-- The code of a C character constant. -/
def ch (c : Char) : Nat := c.toNat

/-- The table `abyCIDFDesc` of `DispatchVendorRequest` (lines 486-498). -/
def abyCIDFDesc : List Nat :=
  [ 0x28, 0x00, 0x00, 0x00,
    0x00, 0x01,
    0x04, 0x00,
    0x01,
    0x00, 0x00, 0x00, 0x00, 0x00, 0x00, 0x00,
    0x00,
    0x01,
    0x57, 0x49, 0x4E, 0x55, 0x53, 0x42, 0x00, 0x00,
    0x00, 0x00, 0x00, 0x00, 0x00, 0x00, 0x00, 0x00,
    0x00, 0x00, 0x00, 0x00, 0x00, 0x00 ]

/-- The table `abyEPFDesc` of `DispatchVendorRequest` (lines 511-527). -/
def abyEPFDesc : List Nat :=
  [ 0x92, 0x00, 0x00, 0x00,
    0x00, 0x01,
    0x05, 0x00,
    0x01, 0x00,
    0x88, 0x00, 0x00, 0x00,
    0x07, 0x00, 0x00, 0x00,
    0x2A, 0x00,
    ch 'D',0,ch 'e',0,ch 'v',0,ch 'i',0,ch 'c',0,ch 'e',0,ch 'I',0,ch 'n',0,ch 't',0,ch 'e',0,
    ch 'r',0,ch 'f',0,ch 'a',0,ch 'c',0,ch 'e',0,ch 'G',0,ch 'U',0,ch 'I',0,ch 'D',0,ch 's',0,
    0x00, 0x00,
    0x50, 0x00, 0x00, 0x00,
    ch '{',0,ch '6',0,ch 'E',0,ch '4',0,ch '5',0,ch '7',0,ch '3',0,ch '6',0,ch 'A',0,ch '-',0,
    ch '2',0,ch 'B',0,ch '1',0,ch 'B',0,ch '-',0,ch '4',0,ch '0',0,ch '7',0,ch '8',0,ch '-',0,
    ch 'B',0,ch '7',0,ch '7',0,ch '2',0,ch '-',0,ch 'B',0,ch '3',0,ch 'A',0,ch 'F',0,ch '2',0,
    ch 'B',0,ch '6',0,ch 'F',0,ch 'D',0,ch 'E',0,ch '1',0,ch 'C',0,ch '}',0,
    0x00,0x00, 0x00,0x00 ]

/-- The table `abyOsDescriptor` of `GetStringDescriptorHandler` (lines 586-593). -/
def abyOsDescriptor : List Nat :=
  [ 0x12,
    0x03,
    0x4D, 0x00, 0x53, 0x00, 0x46, 0x00, 0x54, 0x00, 0x31, 0x00, 0x30, 0x00, 0x30, 0x00,
    VENDOR_REQUEST_GET_MS_OS_DESCRIPTOR,
    0x00 ]

/-- `SendEP0Data` (lines 458-464).  `uBufferBytes` is an `unsigned` and `wLength`
an `unsigned short`, so the comparison is one of non-negative numbers. -/
def SendEP0Data (pbySendBuffer : List Nat) (uBufferBytes : Nat) (pUSBRequest : tUSBRequest) :
    List EP0Action :=
  let ulSize := if pUSBRequest.wLength < uBufferBytes then pUSBRequest.wLength else uBufferBytes
  [EP0Action.USBDCDSendDataEP0 pbySendBuffer ulSize]

/-- `DispatchVendorRequest` (lines 476-532).  The two out-parameters are passed in
with the values they hold before the call and returned with the values they hold
after it; a null `*pbySendBuffer_out` is `none`.  `sizeof` of a table is the
number of its bytes. -/
def DispatchVendorRequest (k : RTypeConsts) (pUSBRequest : tUSBRequest)
    (pbySendBuffer_out : Option (List Nat)) (puBufferBytes_out : Nat) :
    Option (List Nat) × Nat :=
  if (pUSBRequest.bmRequestType &&& k.USB_RTYPE_TYPE_M) ≠ k.USB_RTYPE_VENDOR then
    (pbySendBuffer_out, puBufferBytes_out)
  else if VENDOR_REQUEST_GET_MS_OS_DESCRIPTOR = pUSBRequest.bRequest ∧
      4 = pUSBRequest.wIndex ∧
      k.USB_RTYPE_DEVICE = (pUSBRequest.bmRequestType &&& k.USB_RTYPE_RECIPIENT_M) then
    (some abyCIDFDesc, abyCIDFDesc.length)
  else if VENDOR_REQUEST_GET_MS_OS_DESCRIPTOR = pUSBRequest.bRequest ∧
      5 = pUSBRequest.wIndex ∧
      k.USB_RTYPE_INTERFACE = (pUSBRequest.bmRequestType &&& k.USB_RTYPE_RECIPIENT_M) then
    (some abyEPFDesc, abyEPFDesc.length)
  else
    (pbySendBuffer_out, puBufferBytes_out)

/-- `VendorRequestHandler` (lines 540-563): the endpoint 0 calls it makes, in
order.  The unused argument `pvInstance` is left out. -/
def VendorRequestHandler (k : RTypeConsts) (pUSBRequest : tUSBRequest) : List EP0Action :=
  let out := DispatchVendorRequest k pUSBRequest none 0
  EP0Action.USBDevEndpointDataAck ::
    (match out.1 with
     | some pbySendBuffer =>
         if out.2 ≠ 0 then SendEP0Data pbySendBuffer out.2 pUSBRequest
         else [EP0Action.USBDCDStallEP0]
     | none => [EP0Action.USBDCDStallEP0])

/-- `GetStringDescriptorHandler` (lines 574-596): the endpoint 0 calls it makes,
in order.  The unused argument `pvInstance` is left out. -/
def GetStringDescriptorHandler (pUSBRequest : tUSBRequest) : List EP0Action :=
  if (pUSBRequest.wValue &&& 0xFF) ≠ MS_OS_STRING_DESCRIPTOR then
    [EP0Action.USBDCDStallEP0]
  else
    SendEP0Data abyOsDescriptor abyOsDescriptor.length pUSBRequest

/-- The payloads a handler transmits on endpoint 0, in order: the wire bytes of
each `USBDCDSendDataEP0` call of the trace. -/
def sentData : List EP0Action → List (List Nat)
  | [] => []
  | .USBDCDSendDataEP0 pucData ulSize :: t => pucData.take ulSize :: sentData t
  | _ :: t => sentData t

/-! ## Descriptor layouts as the specification words them -/

/-- A 16-bit value as two bytes, least significant first. -/
def le16 (v : Nat) : List Nat := [v % 256, v / 256 % 256]

/-- A 32-bit value as four bytes, least significant first. -/
def le32 (v : Nat) : List Nat :=
  [v % 256, v / 256 % 256, v / 65536 % 256, v / 16777216 % 256]

/-- The ASCII bytes of a string. -/
def ascii (s : String) : List Nat := s.toList.map Char.toNat

/-- The UTF-16LE bytes of a string of characters of the basic plane, without a
terminator. -/
def utf16le (s : String) : List Nat := s.toList.flatMap (fun c => le16 c.toNat)

/-- The Compatible ID Feature Descriptor as the specification lays it out. -/
def compatibleIdLayout : List Nat :=
  le32 0x00000028 ++ le16 0x0100 ++ le16 0x0004 ++ [1] ++ List.replicate 7 0 ++
    [0] ++ [1] ++ (ascii "WINUSB" ++ [0, 0]) ++ List.replicate 8 0 ++ List.replicate 6 0

/-- The Extended Properties Feature Descriptor as the specification lays it
out. -/
def extendedPropertiesLayout : List Nat :=
  le32 0x92 ++ le16 0x0100 ++ le16 0x0005 ++ le16 1 ++ le32 0x88 ++ le32 7 ++ le16 42 ++
    (utf16le "DeviceInterfaceGUIDs" ++ [0, 0]) ++ le32 80 ++
    (utf16le "\x7b6E45736A-2B1B-4078-B772-B3AF2B6FDE1C\x7d" ++ [0, 0, 0, 0])

/-- The 18 bytes of the MS OS String Descriptor as the specification lists
them. -/
def osStringLayout : List Nat :=
  [0x12, 0x03, 0x4D, 0x00, 0x53, 0x00, 0x46, 0x00, 0x54, 0x00, 0x31, 0x00, 0x30, 0x00,
   0x30, 0x00, 0x07, 0x00]

/-- A request is one of the two recognised queries, in the words of the
specification. -/
def recognised (k : RTypeConsts) (q : tUSBRequest) : Prop :=
  (q.bmRequestType &&& k.USB_RTYPE_TYPE_M) = k.USB_RTYPE_VENDOR ∧ q.bRequest = 7 ∧
    ((q.wIndex = 4 ∧ (q.bmRequestType &&& k.USB_RTYPE_RECIPIENT_M) = k.USB_RTYPE_DEVICE) ∨
     (q.wIndex = 5 ∧ (q.bmRequestType &&& k.USB_RTYPE_RECIPIENT_M) = k.USB_RTYPE_INTERFACE))

instance (k : RTypeConsts) (q : tUSBRequest) : Decidable (recognised k q) := by
  unfold recognised; infer_instance

/-! ## Bulk channel event handlers -/

/-- The event codes of the USB library headers that `TxHandler` and `RxHandler`
compare `ulEvent` with.  Their values are not part of the source file, so the
handlers take them as a parameter. -/
structure EventConsts where
  USB_EVENT_CONNECTED : Nat
  USB_EVENT_DISCONNECTED : Nat
  USB_EVENT_RX_AVAILABLE : Nat
  USB_EVENT_TX_COMPLETE : Nat
  USB_EVENT_SUSPEND : Nat
  USB_EVENT_RESUME : Nat
  deriving DecidableEq, Repr

/-- The event codes as the USB library numbers them from `USB_EVENT_BASE = 0`:
connected 0, disconnected 1, receive available 2, transmit complete 5, suspend 7,
resume 8. -/
def usblibEvents : EventConsts :=
  { USB_EVENT_CONNECTED := 0, USB_EVENT_DISCONNECTED := 1, USB_EVENT_RX_AVAILABLE := 2,
    USB_EVENT_TX_COMPLETE := 5, USB_EVENT_SUSPEND := 7, USB_EVENT_RESUME := 8 }

/-- Modelled from the spec: `USBBufferFlush` belongs to the USB library and is not
part of the source file.  The spec describes it as resetting the ring buffer to
the empty state, after which the buffer reports zero unread bytes: the read
index catches up with the write index. -/
def USBBufferFlush (b : tUSBRingBufObject) : tUSBRingBufObject :=
  { b with ulReadIndex := b.ulWriteIndex }

/-- Modelled from the spec: the number of unread bytes a ring buffer of the given
capacity reports, the distance from the read index to the write index, both
being taken modulo the capacity.  The library function that reports it is not
part of the source file. -/
def USBBufferDataAvailable (BULK_BUFFER_SIZE : Nat) (b : tUSBRingBufObject) : Nat :=
  (b.ulWriteIndex + BULK_BUFFER_SIZE - b.ulReadIndex % BULK_BUFFER_SIZE) % BULK_BUFFER_SIZE

/-- Modelled from the spec: the available space of a ring buffer, "capacity minus
unread bytes".  `USBBufferSpaceAvailable` belongs to the USB library and is not
part of the source file; `EchoNewDataToHost` above takes the value the library
reports as the parameter `ulSpace`, so what is proved about the echo engine holds
for whatever value the library reports. -/
def USBBufferSpaceAvailable (BULK_BUFFER_SIZE : Nat) (b : tUSBRingBufObject) : Nat :=
  BULK_BUFFER_SIZE - USBBufferDataAvailable BULK_BUFFER_SIZE b

/-- `TxHandler` (lines 326-345): the return value and the globals after the call.
The unused arguments `pvCBData` and `pvMsgData` are left out. -/
def TxHandler (e : EventConsts) (g : Globals) (ulEvent ulMsgValue : Nat) : Nat × Globals :=
  let g1 :=
    if ulEvent = e.USB_EVENT_TX_COMPLETE then
      { g with g_ulTxCount := (g.g_ulTxCount + ulMsgValue) % ULONG_RANGE }
    else
      g
  (0, g1)

/-- `RxHandler` (lines 364-438): the return value and the globals after the call.
The `switch` is an `if` chain over the case labels in source order.
`pvMsgData` is the pointer argument expressed as its offset from
`g_pucUSBRxBuffer`; `BULK_BUFFER_SIZE` and `ulSpace` are handed on to
`EchoNewDataToHost`; `pvCBData` only supplies the unused `psDevice`. -/
def RxHandler (e : EventConsts) (BULK_BUFFER_SIZE ulSpace : Nat) (g : Globals)
    (ulEvent ulMsgValue pvMsgData : Nat) : Nat × Globals :=
  if ulEvent = e.USB_EVENT_CONNECTED then
    let g1 := { g with g_bUSBConfigured := true }
    let g2 := { g1 with g_sTxBuffer := USBBufferFlush g1.g_sTxBuffer }
    let g3 := { g2 with g_sRxBuffer := USBBufferFlush g2.g_sRxBuffer }
    (0, g3)
  else if ulEvent = e.USB_EVENT_DISCONNECTED then
    (0, { g with g_bUSBConfigured := false })
  else if ulEvent = e.USB_EVENT_RX_AVAILABLE then
    EchoNewDataToHost BULK_BUFFER_SIZE ulSpace g pvMsgData ulMsgValue
  else if ulEvent = e.USB_EVENT_SUSPEND ∨ ulEvent = e.USB_EVENT_RESUME then
    (0, g)
  else
    (0, g)

/-! ## Start-up configuration -/

/-- A function pointer stored in the callback table of the device: null, one of
the two handlers of `usb_dev_bulk.c`, or some other function. -/
inductive tCallback where
  | null
  | VendorRequestHandler
  | GetStringDescriptorHandler
  | other (addr : Nat)
  deriving DecidableEq, Repr

/-- The parts of `g_sBulkDeviceInfo` that `usb_dev_bulk.c` writes (lines 607-620):
the bytes `pDeviceDescriptor` points to and the two entries of `sCallbacks`.  The
object itself is defined by the USB library. -/
structure tDeviceInfo where
  pDeviceDescriptor : List Nat
  pfnRequestHandler : tCallback
  pfnGetStringDescriptor : tCallback
  deriving DecidableEq, Repr

/-- `ConfigureUsb200` (lines 605-609): the store `*pwUsbVersion = 0x200` through an
`unsigned short *` that points two bytes into the device descriptor.  The target
is little-endian, so the store writes the low byte at offset 2 and the high byte
at offset 3. -/
def ConfigureUsb200 (g_sBulkDeviceInfo : tDeviceInfo) : tDeviceInfo :=
  { g_sBulkDeviceInfo with
    pDeviceDescriptor :=
      (g_sBulkDeviceInfo.pDeviceDescriptor.set 2 (0x200 % 256)).set 3 (0x200 / 256 % 256) }

/-- `ConfigureAutoWinUsbInstall` (lines 616-621). -/
def ConfigureAutoWinUsbInstall (g_sBulkDeviceInfo : tDeviceInfo) : tDeviceInfo :=
  let d1 := ConfigureUsb200 g_sBulkDeviceInfo
  let d2 := { d1 with pfnRequestHandler := tCallback.VendorRequestHandler }
  { d2 with pfnGetStringDescriptor := tCallback.GetStringDescriptorHandler }

/-! ## Reading traces and descriptor fields -/

/-- A send or a stall: the calls that answer a control request. -/
def EP0Action.isResponse : EP0Action → Bool
  | .USBDCDSendDataEP0 _ _ => true
  | .USBDCDStallEP0 => true
  | .USBDevEndpointDataAck => false

/-- A send call. -/
def EP0Action.isSend : EP0Action → Bool
  | .USBDCDSendDataEP0 _ _ => true
  | _ => false

/-- The 16-bit little-endian value stored at a byte offset of a table. -/
def rd16 (l : List Nat) (off : Nat) : Nat :=
  l.getD off 0 + 256 * l.getD (off + 1) 0

/-- The 32-bit little-endian value stored at a byte offset of a table. -/
def rd32 (l : List Nat) (off : Nat) : Nat :=
  l.getD off 0 + 256 * l.getD (off + 1) 0 + 65536 * l.getD (off + 2) 0 +
    16777216 * l.getD (off + 3) 0

/-- The bytes of a table from offset `off`, `n` of them. -/
def slice (l : List Nat) (off n : Nat) : List Nat := (l.drop off).take n

/-! ## The statements of the vendor request handler in order -/

/-- One step of `VendorRequestHandler` in the order of its statements: a call on
endpoint 0, or the call of `DispatchVendorRequest` with the values the call
leaves in the locals `pbySendBuffer` and `uBufferBytes` (the selected payload,
or null and 0 when none is selected). -/
inductive HandlerStep where
  | ep0 (a : EP0Action)
  | DispatchVendorRequest (pbySendBuffer : Option (List Nat)) (uBufferBytes : Nat)
  deriving DecidableEq, Repr

/-- `VendorRequestHandler` (lines 540-563) statement by statement: the locals are
initialised (lines 542-543), `MAP_USBDevEndpointDataAck` is called (line 552),
then `DispatchVendorRequest` (line 554), then the `if` of lines 555-562 sends or
stalls.  Each call is appended to the steps made so far. -/
def VendorRequestHandlerSteps (k : RTypeConsts) (pUSBRequest : tUSBRequest) :
    List HandlerStep :=
  let pbySendBuffer : Option (List Nat) := none
  let uBufferBytes : Nat := 0
  let s1 : List HandlerStep := [HandlerStep.ep0 EP0Action.USBDevEndpointDataAck]
  let out := DispatchVendorRequest k pUSBRequest pbySendBuffer uBufferBytes
  let s2 := s1 ++ [HandlerStep.DispatchVendorRequest out.1 out.2]
  match out.1 with
  | some pbySendBuffer1 =>
      if out.2 ≠ 0 then
        s2 ++ (SendEP0Data pbySendBuffer1 out.2 pUSBRequest).map HandlerStep.ep0
      else
        s2 ++ [HandlerStep.ep0 EP0Action.USBDCDStallEP0]
  | none => s2 ++ [HandlerStep.ep0 EP0Action.USBDCDStallEP0]

/-- The endpoint 0 calls among the steps of a handler, in order. -/
def ep0Calls : List HandlerStep → List EP0Action
  | [] => []
  | .ep0 a :: t => a :: ep0Calls t
  | .DispatchVendorRequest _ _ :: t => ep0Calls t

end UsbDevBulk

namespace UsbDevBulk

theorem echoByte_lower (b : Nat) (h1 : 97 ≤ b) (h2 : b ≤ 122) : echoByte b = b - 32 := by
  unfold echoByte
  rw [if_pos ⟨h1, h2⟩]
  omega

theorem echoByte_upper (b : Nat) (h1 : 65 ≤ b) (h2 : b ≤ 90) : echoByte b = b + 32 := by
  unfold echoByte
  rw [if_neg (by omega), if_pos ⟨h1, h2⟩]
  omega

theorem echoByte_other (b : Nat) (hb : b < 256) (h : ¬ (97 ≤ b ∧ b ≤ 122))
    (h2 : ¬ (65 ≤ b ∧ b ≤ 90)) : echoByte b = b := by
  unfold echoByte
  rw [if_neg h, if_neg h2]
  omega

theorem echoByte_lt (b : Nat) : echoByte b < 256 := by
  unfold echoByte
  split
  · omega
  · split <;> omega

theorem echoByte_echoByte (b : Nat) (hb : b < 256) : echoByte (echoByte b) = b := by
  by_cases h : 97 ≤ b ∧ b ≤ 122
  · rw [echoByte_lower b h.1 h.2, echoByte_upper _ (by omega) (by omega)]
    omega
  · by_cases h2 : 65 ≤ b ∧ b ≤ 90
    · rw [echoByte_upper b h2.1 h2.2, echoByte_lower _ (by omega) (by omega)]
      omega
    · rw [echoByte_other b hb h h2, echoByte_other b hb h h2]

end UsbDevBulk

namespace UsbDevBulk

/-! ## Index arithmetic of the echo loop -/

theorem nextIndex_of_lt (C i : Nat) (hC : C ≤ ULONG_RANGE) (hi : i < C) :
    nextIndex C i = if i + 1 = C then 0 else i + 1 := by
  unfold nextIndex
  simp only
  unfold ULONG_RANGE at hC ⊢
  by_cases h : i + 1 = C
  · rw [if_pos h]
    by_cases h2 : C = 2 ^ 32
    · have h3 : (i + 1) % 2 ^ 32 = 0 := by rw [h, h2]; exact Nat.mod_self _
      rw [h3]
      split <;> rfl
    · have h3 : (i + 1) % 2 ^ 32 = i + 1 := Nat.mod_eq_of_lt (by omega)
      rw [h3, if_pos h]
  · rw [if_neg h]
    have h3 : (i + 1) % 2 ^ 32 = i + 1 := Nat.mod_eq_of_lt (by omega)
    rw [h3, if_neg h]

theorem nextIndex_lt (C i : Nat) (hC : C ≤ ULONG_RANGE) (hi : i < C) : nextIndex C i < C := by
  rw [nextIndex_of_lt C i hC hi]
  split <;> omega

theorem nextIndex_add_mod (C i j : Nat) (hC : C ≤ ULONG_RANGE) (hi : i < C) :
    (nextIndex C i + j) % C = (i + (j + 1)) % C := by
  rw [nextIndex_of_lt C i hC hi]
  by_cases h : i + 1 = C
  · rw [if_pos h]
    have e : i + (j + 1) = C + j := by omega
    rw [e, Nat.add_mod_left, Nat.zero_add]
  · rw [if_neg h]
    have e : i + 1 + j = i + (j + 1) := by omega
    rw [e]

theorem add_mod_ne_self (C w k : Nat) (hw : w < C) (hk0 : 0 < k) (hk : k < C) :
    (w + k) % C ≠ w := by
  by_cases h : w + k < C
  · rw [Nat.mod_eq_of_lt h]
    omega
  · have e : (w + k) % C = w + k - C := by
      rw [Nat.mod_eq_sub_mod (by omega)]
      exact Nat.mod_eq_of_lt (by omega)
    rw [e]
    omega

theorem echoLoop_length (C : Nat) (rx : List Nat) (n r w : Nat) (tx : List Nat) :
    (echoLoop C rx n r w tx).length = tx.length := by
  induction n generalizing r w tx with
  | zero => rfl
  | succ n ih =>
      rw [echoLoop, ih, List.length_set]

theorem getD_set_self (tx : List Nat) (w v : Nat) (hw : w < tx.length) :
    (tx.set w v).getD w 0 = v := by
  simp [List.getD_eq_getElem?_getD, List.getElem?_set_self hw]

theorem getD_set_ne (tx : List Nat) (w p v : Nat) (h : p ≠ w) :
    (tx.set w v).getD p 0 = tx.getD p 0 := by
  simp [List.getD_eq_getElem?_getD, List.getElem?_set_ne (Ne.symm h)]

/-- What the loop leaves in the transmit array: the `n` positions starting at `w`
(wrapping at `C`) hold the swapped bytes read from the `n` positions starting at
`r`, and every other position keeps its byte. -/
theorem echoLoop_spec (C : Nat) (rx : List Nat) (hC : C ≤ ULONG_RANGE) (n r w : Nat)
    (tx : List Nat) (hr : r < C) (hw : w < C) (htx : tx.length = C) (hn : n ≤ C) :
    (∀ i, i < n →
        (echoLoop C rx n r w tx).getD ((w + i) % C) 0 = echoByte (rx.getD ((r + i) % C) 0)) ∧
    (∀ p, (∀ i, i < n → p ≠ (w + i) % C) →
        (echoLoop C rx n r w tx).getD p 0 = tx.getD p 0) := by
  induction n generalizing r w tx with
  | zero =>
      exact ⟨fun i hi => absurd hi (Nat.not_lt_zero i), fun p _ => rfl⟩
  | succ n ih =>
      have hr1 := nextIndex_lt C r hC hr
      have hw1 := nextIndex_lt C w hC hw
      have hlen : (tx.set w (echoByte (rx.getD r 0))).length = C := by
        rw [List.length_set]; exact htx
      obtain ⟨ih1, ih2⟩ := ih (nextIndex C r) (nextIndex C w)
        (tx.set w (echoByte (rx.getD r 0))) hr1 hw1 hlen (by omega)
      rw [echoLoop]
      constructor
      · intro i hi
        cases i with
        | zero =>
            rw [Nat.add_zero, Nat.add_zero, Nat.mod_eq_of_lt hw, Nat.mod_eq_of_lt hr]
            rw [ih2 w]
            · exact getD_set_self tx w _ (by omega)
            · intro j hj
              rw [nextIndex_add_mod C w j hC hw]
              exact Ne.symm (add_mod_ne_self C w (j + 1) hw (by omega) (by omega))
        | succ j =>
            rw [← nextIndex_add_mod C w j hC hw, ← nextIndex_add_mod C r j hC hr]
            exact ih1 j (by omega)
      · intro p hp
        have hpw : p ≠ w := by
          have := hp 0 (by omega)
          rwa [Nat.add_zero, Nat.mod_eq_of_lt hw] at this
        rw [ih2 p]
        · exact getD_set_ne tx w p _ hpw
        · intro j hj
          rw [nextIndex_add_mod C w j hC hw]
          exact hp (j + 1) (by omega)

/-! ## The per-byte rule -/

/-- C1: the byte rule of `EchoNewDataToHost` maps every lower-case letter `b` to
`b - 0x20`, every upper-case letter `b` to `b + 0x20` and leaves every other byte
as it is; the upper-case branch `(b - 'Z') + 'z'`, computed over the integers,
equals `b + 0x20` and stays below `256`; the result is always a byte. -/
theorem echoByte_case_swap (b : Nat) (hb : b < 256) :
    (97 ≤ b ∧ b ≤ 122 → echoByte b = b - 0x20) ∧
    (65 ≤ b ∧ b ≤ 90 →
      echoByte b = b + 0x20 ∧ ((b : Int) - 90) + 122 = (b : Int) + 0x20 ∧ b + 0x20 < 256) ∧
    (¬ (97 ≤ b ∧ b ≤ 122) ∧ ¬ (65 ≤ b ∧ b ≤ 90) → echoByte b = b) ∧
    echoByte b < 256 := by
  refine ⟨fun h => echoByte_lower b h.1 h.2, fun h => ⟨echoByte_upper b h.1 h.2, ?_, ?_⟩,
    fun h => echoByte_other b hb h.1 h.2, echoByte_lt b⟩
  · omega
  · omega

/-- Witness of C1 at `'A'`, `'a'` and `'0'`. -/
theorem echoByte_case_swap_witness :
    echoByte 65 = 97 ∧ echoByte 97 = 65 ∧ echoByte 48 = 48 :=
  ⟨((echoByte_case_swap 65 (by decide)).2.1 (by decide)).1,
   (echoByte_case_swap 97 (by decide)).1 (by decide),
   (echoByte_case_swap 48 (by decide)).2.2.1 (by decide)⟩

/-- C2: applying the byte rule to every byte of a byte sequence and then to every
byte of the result gives the sequence back. -/
theorem echoByte_involution (s : List Nat) (hs : ∀ b ∈ s, b < 256) :
    (s.map echoByte).map echoByte = s := by
  induction s with
  | nil => rfl
  | cons a t ih =>
      have ha : a < 256 := hs a (List.mem_cons_self a t)
      have ht : ∀ b ∈ t, b < 256 := fun b hbt => hs b (List.mem_cons_of_mem a hbt)
      simp only [List.map_cons, echoByte_echoByte a ha, ih ht]

/-- Witness of C2 on the bytes of `"aZ0"` followed by `0xFF`. -/
theorem echoByte_involution_witness :
    ([97, 90, 48, 255].map echoByte).map echoByte = [97, 90, 48, 255] :=
  echoByte_involution [97, 90, 48, 255] (by decide)

/-! ## The echo engine -/

/-- C3: `EchoNewDataToHost` returns the smaller of the number of bytes delivered
and the transmit space reported at entry; that is the space when the space is
smaller, and `0` when there is no space. -/
theorem EchoNewDataToHost_returns_min (BULK_BUFFER_SIZE S : Nat) (g : Globals) (pcData N : Nat) :
    (EchoNewDataToHost BULK_BUFFER_SIZE S g pcData N).1 = min N S ∧
    (S < N → (EchoNewDataToHost BULK_BUFFER_SIZE S g pcData N).1 = S) ∧
    (S = 0 → (EchoNewDataToHost BULK_BUFFER_SIZE S g pcData N).1 = 0) := by
  have h : (EchoNewDataToHost BULK_BUFFER_SIZE S g pcData N).1 = if S < N then S else N := rfl
  rw [h]
  refine ⟨?_, ?_, ?_⟩
  · split <;> omega
  · intro hlt
    rw [if_pos hlt]
  · intro h0
    split <;> omega

/-- Witness of C3: four bytes delivered with room for three, and with no room. -/
theorem EchoNewDataToHost_returns_min_witness :
    (EchoNewDataToHost 4 3 ⟨0, 0, true, [97, 66, 48, 122], [0, 0, 0, 0], ⟨3, 0⟩, ⟨0, 0⟩⟩ 2 4).1 = 3 ∧
    (EchoNewDataToHost 4 0 ⟨0, 0, true, [97, 66, 48, 122], [0, 0, 0, 0], ⟨3, 0⟩, ⟨0, 0⟩⟩ 2 4).1 = 0 :=
  ⟨(EchoNewDataToHost_returns_min 4 3
      ⟨0, 0, true, [97, 66, 48, 122], [0, 0, 0, 0], ⟨3, 0⟩, ⟨0, 0⟩⟩ 2 4).2.1 (by decide),
   (EchoNewDataToHost_returns_min 4 0
      ⟨0, 0, true, [97, 66, 48, 122], [0, 0, 0, 0], ⟨3, 0⟩, ⟨0, 0⟩⟩ 2 4).2.2 rfl⟩

/-- C4: with read index `r` and write index `w` inside buffers of capacity `C` and
`c = min N S` at most `C`, after `EchoNewDataToHost` the transmit array holds at
position `(w + i) mod C` the swapped byte of the receive array at position
`(r + i) mod C` for every `i < c`, every other transmit position is unchanged,
and the receive array is unchanged. -/
theorem EchoNewDataToHost_buffers (C S : Nat) (g : Globals) (r N : Nat)
    (hC : C ≤ ULONG_RANGE) (hr : r < C) (hw : g.g_sTxBuffer.ulWriteIndex < C)
    (htx : g.g_pucUSBTxBuffer.length = C) (hc : min N S ≤ C) :
    (∀ i, i < min N S →
      (EchoNewDataToHost C S g r N).2.g_pucUSBTxBuffer.getD
          ((g.g_sTxBuffer.ulWriteIndex + i) % C) 0 =
        echoByte (g.g_pucUSBRxBuffer.getD ((r + i) % C) 0)) ∧
    (∀ p, (∀ i, i < min N S → p ≠ (g.g_sTxBuffer.ulWriteIndex + i) % C) →
      (EchoNewDataToHost C S g r N).2.g_pucUSBTxBuffer.getD p 0 =
        g.g_pucUSBTxBuffer.getD p 0) ∧
    (EchoNewDataToHost C S g r N).2.g_pucUSBTxBuffer.length = C ∧
    (EchoNewDataToHost C S g r N).2.g_pucUSBRxBuffer = g.g_pucUSBRxBuffer := by
  have hmin : (if S < N then S else N) = min N S := by split <;> omega
  have hrd : r % ULONG_RANGE = r := Nat.mod_eq_of_lt (by omega)
  have htxeq : (EchoNewDataToHost C S g r N).2.g_pucUSBTxBuffer =
      echoLoop C g.g_pucUSBRxBuffer (min N S) r g.g_sTxBuffer.ulWriteIndex
        g.g_pucUSBTxBuffer := by
    simp only [EchoNewDataToHost, USBBufferInfoGet, hmin, hrd]
  obtain ⟨h1, h2⟩ := echoLoop_spec C g.g_pucUSBRxBuffer hC (min N S) r
    g.g_sTxBuffer.ulWriteIndex g.g_pucUSBTxBuffer hr hw htx hc
  refine ⟨?_, ?_, ?_, rfl⟩
  · intro i hi
    rw [htxeq]
    exact h1 i hi
  · intro p hp
    rw [htxeq]
    exact h2 p hp
  · rw [htxeq, echoLoop_length]
    exact htx

/-- Witness of C4: capacity 4, four bytes delivered at read index 2, room for
three, write index 3: the second byte written lands at position 0 and is the
swapped byte of receive position 3. -/
theorem EchoNewDataToHost_buffers_witness :
    (EchoNewDataToHost 4 3 ⟨0, 0, true, [97, 66, 48, 122], [1, 2, 3, 4], ⟨3, 0⟩, ⟨0, 0⟩⟩
        2 4).2.g_pucUSBTxBuffer.getD ((3 + 1) % 4) 0 =
      echoByte ([97, 66, 48, 122].getD ((2 + 1) % 4) 0) :=
  (EchoNewDataToHost_buffers 4 3 ⟨0, 0, true, [97, 66, 48, 122], [1, 2, 3, 4], ⟨3, 0⟩, ⟨0, 0⟩⟩
    2 4 (by decide) (by decide) (by decide) (by decide) (by decide)).1 1 (by decide)

/-! ## Endpoint 0 -/

theorem and_0xFF (v : Nat) : v &&& 0xFF = v % 256 :=
  Nat.and_pow_two_sub_one_eq_mod v 8

theorem DispatchVendorRequest_compatibleId (k : RTypeConsts) (q : tUSBRequest)
    (p : Option (List Nat)) (n : Nat)
    (htype : q.bmRequestType &&& k.USB_RTYPE_TYPE_M = k.USB_RTYPE_VENDOR)
    (hrec : q.bmRequestType &&& k.USB_RTYPE_RECIPIENT_M = k.USB_RTYPE_DEVICE)
    (hreq : q.bRequest = 7) (hidx : q.wIndex = 4) :
    DispatchVendorRequest k q p n = (some abyCIDFDesc, 40) := by
  unfold DispatchVendorRequest
  rw [if_neg (not_not.mpr htype), if_pos ⟨hreq.symm, hidx.symm, hrec.symm⟩]
  rfl

theorem DispatchVendorRequest_extendedProperties (k : RTypeConsts) (q : tUSBRequest)
    (p : Option (List Nat)) (n : Nat)
    (htype : q.bmRequestType &&& k.USB_RTYPE_TYPE_M = k.USB_RTYPE_VENDOR)
    (hrec : q.bmRequestType &&& k.USB_RTYPE_RECIPIENT_M = k.USB_RTYPE_INTERFACE)
    (hreq : q.bRequest = 7) (hidx : q.wIndex = 5) :
    DispatchVendorRequest k q p n = (some abyEPFDesc, 146) := by
  unfold DispatchVendorRequest
  rw [if_neg (not_not.mpr htype), if_neg (by rw [hidx]; simp),
    if_pos ⟨hreq.symm, hidx.symm, hrec.symm⟩]
  rfl

theorem DispatchVendorRequest_unrecognised (k : RTypeConsts) (q : tUSBRequest)
    (p : Option (List Nat)) (n : Nat) (h : ¬ recognised k q) :
    DispatchVendorRequest k q p n = (p, n) := by
  unfold DispatchVendorRequest
  split
  · rfl
  · rename_i htype
    have htype2 := not_not.mp htype
    split
    · rename_i h1
      exact absurd ⟨htype2, h1.1.symm, Or.inl ⟨h1.2.1.symm, h1.2.2.symm⟩⟩ h
    · split
      · rename_i h2
        exact absurd ⟨htype2, h2.1.symm, Or.inr ⟨h2.2.1.symm, h2.2.2.symm⟩⟩ h
      · rfl

theorem abyCIDFDesc_layout : abyCIDFDesc = compatibleIdLayout := by decide

set_option maxRecDepth 8000 in
theorem abyEPFDesc_layout : abyEPFDesc = extendedPropertiesLayout := by decide

theorem abyOsDescriptor_layout : abyOsDescriptor = osStringLayout := by decide

set_option maxRecDepth 8000 in
theorem abyEPFDesc_length : abyEPFDesc.length = 146 := by decide

/-- C5: a vendor request to the device with request code 7, index 4 and a
requested length of at least 40 is acknowledged and answered with exactly the 40
bytes of the Compatible ID Feature Descriptor in the layout of the
specification, `WINUSB` followed by two zero bytes at offsets 18 to 25, and
endpoint 0 is not stalled. -/
theorem VendorRequestHandler_compatibleId (k : RTypeConsts) (q : tUSBRequest)
    (htype : q.bmRequestType &&& k.USB_RTYPE_TYPE_M = k.USB_RTYPE_VENDOR)
    (hrec : q.bmRequestType &&& k.USB_RTYPE_RECIPIENT_M = k.USB_RTYPE_DEVICE)
    (hreq : q.bRequest = 7) (hidx : q.wIndex = 4) (hlen : 40 ≤ q.wLength) :
    VendorRequestHandler k q =
      [EP0Action.USBDevEndpointDataAck, EP0Action.USBDCDSendDataEP0 abyCIDFDesc 40] ∧
    sentData (VendorRequestHandler k q) = [compatibleIdLayout] ∧
    compatibleIdLayout.length = 40 ∧
    (compatibleIdLayout.drop 18).take 8 = [0x57, 0x49, 0x4E, 0x55, 0x53, 0x42, 0, 0] ∧
    EP0Action.USBDCDStallEP0 ∉ VendorRequestHandler k q := by
  have htrace : VendorRequestHandler k q =
      [EP0Action.USBDevEndpointDataAck, EP0Action.USBDCDSendDataEP0 abyCIDFDesc 40] := by
    unfold VendorRequestHandler
    rw [DispatchVendorRequest_compatibleId k q none 0 htype hrec hreq hidx]
    simp only [SendEP0Data]
    rw [if_pos (by decide), if_neg (by omega)]
  rw [htrace]
  refine ⟨rfl, ?_, by decide, by decide, by decide⟩
  rw [← abyCIDFDesc_layout]
  decide

/-- Witness of C5: `bmRequestType = 0xC0` (device to host, vendor, device) with the
request type constants of USB 2.0 and `wLength = 64`. -/
theorem VendorRequestHandler_compatibleId_witness :
    sentData (VendorRequestHandler usb20 ⟨0xC0, 7, 0, 4, 64⟩) = [compatibleIdLayout] :=
  (VendorRequestHandler_compatibleId usb20 ⟨0xC0, 7, 0, 4, 64⟩
    (by decide) (by decide) rfl rfl (by decide)).2.1

/-- C6: a vendor request to an interface with request code 7, index 5 and a
requested length of at least 146 is acknowledged and answered with exactly the
146 bytes of the Extended Properties Feature Descriptor in the layout of the
specification, and endpoint 0 is not stalled. -/
theorem VendorRequestHandler_extendedProperties (k : RTypeConsts) (q : tUSBRequest)
    (htype : q.bmRequestType &&& k.USB_RTYPE_TYPE_M = k.USB_RTYPE_VENDOR)
    (hrec : q.bmRequestType &&& k.USB_RTYPE_RECIPIENT_M = k.USB_RTYPE_INTERFACE)
    (hreq : q.bRequest = 7) (hidx : q.wIndex = 5) (hlen : 146 ≤ q.wLength) :
    VendorRequestHandler k q =
      [EP0Action.USBDevEndpointDataAck, EP0Action.USBDCDSendDataEP0 abyEPFDesc 146] ∧
    sentData (VendorRequestHandler k q) = [extendedPropertiesLayout] ∧
    extendedPropertiesLayout.length = 146 ∧
    EP0Action.USBDCDStallEP0 ∉ VendorRequestHandler k q := by
  have htrace : VendorRequestHandler k q =
      [EP0Action.USBDevEndpointDataAck, EP0Action.USBDCDSendDataEP0 abyEPFDesc 146] := by
    unfold VendorRequestHandler
    rw [DispatchVendorRequest_extendedProperties k q none 0 htype hrec hreq hidx]
    simp only [SendEP0Data]
    rw [if_pos (by decide), if_neg (by omega)]
  have hlay : List.take 146 abyEPFDesc = extendedPropertiesLayout := by
    rw [← abyEPFDesc_layout]
    exact List.take_of_length_le (Nat.le_of_eq abyEPFDesc_length)
  rw [htrace]
  refine ⟨rfl, ?_, ?_, by decide⟩
  · simp only [sentData, hlay]
  · rw [← abyEPFDesc_layout]
    exact abyEPFDesc_length

/-- Witness of C6: `bmRequestType = 0xC1` (device to host, vendor, interface) with
the request type constants of USB 2.0 and `wLength = 146`. -/
theorem VendorRequestHandler_extendedProperties_witness :
    sentData (VendorRequestHandler usb20 ⟨0xC1, 7, 0, 5, 146⟩) = [extendedPropertiesLayout] :=
  (VendorRequestHandler_extendedProperties usb20 ⟨0xC1, 7, 0, 5, 146⟩
    (by decide) (by decide) rfl rfl (by decide)).2.1

theorem SendEP0Data_eq (payload : List Nat) (n : Nat) (q : tUSBRequest) :
    SendEP0Data payload n q = [EP0Action.USBDCDSendDataEP0 payload (min q.wLength n)] := by
  unfold SendEP0Data
  have h : (if q.wLength < n then q.wLength else n) = min q.wLength n := by
    split <;> omega
  simp only [h]

theorem abyOsDescriptor_length : abyOsDescriptor.length = 18 := by decide

/-- C7: a string descriptor request whose `wValue` has low byte `0xEE` is answered
with the first `wLength` of the 18 bytes of the MS OS String Descriptor, which is
all 18 of them when `wLength` is at least 18, and endpoint 0 is not stalled. -/
theorem GetStringDescriptorHandler_osString (q : tUSBRequest) (hidx : q.wValue % 256 = 0xEE) :
    GetStringDescriptorHandler q =
      [EP0Action.USBDCDSendDataEP0 abyOsDescriptor (min q.wLength 18)] ∧
    sentData (GetStringDescriptorHandler q) = [osStringLayout.take q.wLength] ∧
    (18 ≤ q.wLength → sentData (GetStringDescriptorHandler q) = [osStringLayout]) ∧
    (q.wLength < 18 → (osStringLayout.take q.wLength).length = q.wLength) ∧
    EP0Action.USBDCDStallEP0 ∉ GetStringDescriptorHandler q := by
  have htrace : GetStringDescriptorHandler q =
      [EP0Action.USBDCDSendDataEP0 abyOsDescriptor (min q.wLength 18)] := by
    unfold GetStringDescriptorHandler
    rw [and_0xFF, if_neg (show ¬ (q.wValue % 256 ≠ MS_OS_STRING_DESCRIPTOR) from
      not_not.mpr hidx), SendEP0Data_eq, abyOsDescriptor_length]
  have hlen : osStringLayout.length = 18 := by decide
  have hsent : sentData (GetStringDescriptorHandler q) = [osStringLayout.take q.wLength] := by
    rw [htrace]
    simp only [sentData, abyOsDescriptor_layout]
    have ht : List.take (min q.wLength 18) osStringLayout = List.take q.wLength osStringLayout := by
      rw [List.take_eq_take, hlen]
      omega
    rw [ht]
  refine ⟨htrace, hsent, ?_, ?_, ?_⟩
  · intro h18
    rw [hsent, List.take_of_length_le (by omega)]
  · intro h18
    rw [List.length_take]
    omega
  · rw [htrace]
    simp

/-- Witness of C7: `wValue = 0x03EE` with `wLength = 255`, and with `wLength = 2`. -/
theorem GetStringDescriptorHandler_osString_witness :
    sentData (GetStringDescriptorHandler ⟨0x80, 6, 0x03EE, 0, 255⟩) = [osStringLayout] ∧
    sentData (GetStringDescriptorHandler ⟨0x80, 6, 0x03EE, 0x0409, 2⟩) = [[0x12, 0x03]] :=
  ⟨(GetStringDescriptorHandler_osString ⟨0x80, 6, 0x03EE, 0, 255⟩ (by decide)).2.2.1
      (by decide),
   (GetStringDescriptorHandler_osString ⟨0x80, 6, 0x03EE, 0x0409, 2⟩ (by decide)).2.1⟩

/-- C8: for a request that is not one of the two recognised queries,
`DispatchVendorRequest` returns its two out-parameters as it received them, and
`VendorRequestHandler` acknowledges, stalls endpoint 0 and sends no data. -/
theorem VendorRequestHandler_unrecognised (k : RTypeConsts) (q : tUSBRequest)
    (h : ¬ recognised k q) :
    (∀ (p : Option (List Nat)) (n : Nat), DispatchVendorRequest k q p n = (p, n)) ∧
    VendorRequestHandler k q =
      [EP0Action.USBDevEndpointDataAck, EP0Action.USBDCDStallEP0] ∧
    sentData (VendorRequestHandler k q) = [] := by
  have htrace : VendorRequestHandler k q =
      [EP0Action.USBDevEndpointDataAck, EP0Action.USBDCDStallEP0] := by
    unfold VendorRequestHandler
    rw [DispatchVendorRequest_unrecognised k q none 0 h]
  refine ⟨fun p n => DispatchVendorRequest_unrecognised k q p n h, htrace, ?_⟩
  rw [htrace]
  rfl

/-- Witness of C8: index 4 with recipient interface, under the request type
constants of USB 2.0. -/
theorem VendorRequestHandler_unrecognised_witness :
    VendorRequestHandler usb20 ⟨0xC1, 7, 0, 4, 64⟩ =
      [EP0Action.USBDevEndpointDataAck, EP0Action.USBDCDStallEP0] :=
  (VendorRequestHandler_unrecognised usb20 ⟨0xC1, 7, 0, 4, 64⟩ (by decide)).2.1

/-- C9: a string descriptor request whose `wValue` has a low byte other than
`0xEE` stalls endpoint 0 and sends no data. -/
theorem GetStringDescriptorHandler_other (q : tUSBRequest) (hidx : q.wValue % 256 ≠ 0xEE) :
    GetStringDescriptorHandler q = [EP0Action.USBDCDStallEP0] ∧
    sentData (GetStringDescriptorHandler q) = [] := by
  have htrace : GetStringDescriptorHandler q = [EP0Action.USBDCDStallEP0] := by
    unfold GetStringDescriptorHandler
    rw [and_0xFF, if_pos (show q.wValue % 256 ≠ MS_OS_STRING_DESCRIPTOR from hidx)]
  refine ⟨htrace, ?_⟩
  rw [htrace]
  rfl

/-- Witness of C9: `wValue = 0x0304`, string index 4. -/
theorem GetStringDescriptorHandler_other_witness :
    GetStringDescriptorHandler ⟨0x80, 6, 0x0304, 0x0409, 255⟩ = [EP0Action.USBDCDStallEP0] :=
  (GetStringDescriptorHandler_other ⟨0x80, 6, 0x0304, 0x0409, 255⟩ (by decide)).1

/-- C10: for a payload of `L` bytes `SendEP0Data` makes one send call, whose size
is `min wLength L`; the bytes transmitted are the first `min wLength L` bytes of
the payload, and their number is at most `wLength` and at most `L`. -/
theorem SendEP0Data_sends_min (payload : List Nat) (q : tUSBRequest) :
    SendEP0Data payload payload.length q =
      [EP0Action.USBDCDSendDataEP0 payload (min q.wLength payload.length)] ∧
    sentData (SendEP0Data payload payload.length q) =
      [payload.take (min q.wLength payload.length)] ∧
    (payload.take (min q.wLength payload.length)).length = min q.wLength payload.length ∧
    min q.wLength payload.length ≤ q.wLength ∧
    min q.wLength payload.length ≤ payload.length := by
  refine ⟨SendEP0Data_eq payload payload.length q, ?_, ?_, Nat.min_le_left _ _,
    Nat.min_le_right _ _⟩
  · rw [SendEP0Data_eq]
    rfl
  · rw [List.length_take]
    omega

end UsbDevBulk

namespace UsbDevBulk

/-! ## The echo engine: backpressure, counters and split deliveries -/

/-- The loop reads the receive array only at the `n` positions starting at `r`:
two receive arrays that agree there give the same transmit array. -/
theorem echoLoop_congr (C : Nat) (rx1 rx2 : List Nat) (hC : C ≤ ULONG_RANGE) (n r w : Nat)
    (tx : List Nat) (hr : r < C)
    (h : ∀ i, i < n → rx1.getD ((r + i) % C) 0 = rx2.getD ((r + i) % C) 0) :
    echoLoop C rx1 n r w tx = echoLoop C rx2 n r w tx := by
  induction n generalizing r w tx with
  | zero => rfl
  | succ n ih =>
      have h0 : rx1.getD r 0 = rx2.getD r 0 := by
        have := h 0 (by omega)
        rwa [Nat.add_zero, Nat.mod_eq_of_lt hr] at this
      rw [echoLoop, echoLoop, h0]
      apply ih _ _ _ (nextIndex_lt C r hC hr)
      intro i hi
      rw [nextIndex_add_mod C r i hC hr]
      exact h (i + 1) (by omega)

/-- Running the loop for `n1 + n2` bytes is running it for `n1` bytes and then for
`n2` bytes from the indices the first run stopped at. -/
theorem echoLoop_add (C : Nat) (rx : List Nat) (hC : C ≤ ULONG_RANGE) (n1 n2 r w : Nat)
    (tx : List Nat) (hr : r < C) (hw : w < C) :
    echoLoop C rx (n1 + n2) r w tx =
      echoLoop C rx n2 ((r + n1) % C) ((w + n1) % C) (echoLoop C rx n1 r w tx) := by
  induction n1 generalizing r w tx with
  | zero =>
      rw [Nat.zero_add, Nat.add_zero, Nat.add_zero, Nat.mod_eq_of_lt hr, Nat.mod_eq_of_lt hw]
      rfl
  | succ n ih =>
      have e : n + 1 + n2 = (n + n2) + 1 := by omega
      rw [e, echoLoop, ih _ _ _ (nextIndex_lt C r hC hr) (nextIndex_lt C w hC hw),
        nextIndex_add_mod C r n hC hr, nextIndex_add_mod C w n hC hw]
      rfl

theorem EchoNewDataToHost_fst (C S : Nat) (g : Globals) (r N : Nat) :
    (EchoNewDataToHost C S g r N).1 = min N S := by
  have h : (EchoNewDataToHost C S g r N).1 = if S < N then S else N := rfl
  rw [h]
  split <;> omega

theorem EchoNewDataToHost_snd (C S : Nat) (g : Globals) (r N : Nat) :
    (EchoNewDataToHost C S g r N).2 =
      { g with
        g_ulRxCount := (g.g_ulRxCount + N) % ULONG_RANGE
        g_pucUSBTxBuffer :=
          echoLoop C g.g_pucUSBRxBuffer (min N S) (r % ULONG_RANGE) g.g_sTxBuffer.ulWriteIndex
            g.g_pucUSBTxBuffer
        g_sTxBuffer := USBBufferDataWritten C g.g_sTxBuffer (min N S) } := by
  have hmin : (if S < N then S else N) = min N S := by split <;> omega
  simp only [EchoNewDataToHost, USBBufferInfoGet, hmin]

/-- C11: under backpressure (`S < N`) the bytes beyond the first `S` are not read:
two receive arrays that agree on the `S` positions `(r + i) mod C`, `i < S`, lead
to the same transmit array, the same committed ring buffer state and the same
return value, which is `S`. -/
theorem EchoNewDataToHost_remainder_not_read (C S : Nat) (g : Globals) (rx2 : List Nat)
    (r N : Nat) (hC : C ≤ ULONG_RANGE) (hr : r < C) (hS : S < N)
    (hagree : ∀ i, i < S →
      g.g_pucUSBRxBuffer.getD ((r + i) % C) 0 = rx2.getD ((r + i) % C) 0) :
    (EchoNewDataToHost C S g r N).2.g_pucUSBTxBuffer =
      (EchoNewDataToHost C S { g with g_pucUSBRxBuffer := rx2 } r N).2.g_pucUSBTxBuffer ∧
    (EchoNewDataToHost C S g r N).2.g_sTxBuffer =
      (EchoNewDataToHost C S { g with g_pucUSBRxBuffer := rx2 } r N).2.g_sTxBuffer ∧
    (EchoNewDataToHost C S g r N).1 =
      (EchoNewDataToHost C S { g with g_pucUSBRxBuffer := rx2 } r N).1 ∧
    (EchoNewDataToHost C S g r N).1 = S := by
  have hmin : min N S = S := by omega
  have hrd : r % ULONG_RANGE = r := Nat.mod_eq_of_lt (by omega)
  rw [EchoNewDataToHost_snd, EchoNewDataToHost_snd, EchoNewDataToHost_fst,
    EchoNewDataToHost_fst, hmin, hrd]
  refine ⟨?_, rfl, rfl, rfl⟩
  exact echoLoop_congr C g.g_pucUSBRxBuffer rx2 hC S r _ _ hr hagree

/-- Witness of C11: capacity 4, four bytes delivered at read index 2 with room for
three; the receive arrays differ at position 1, the one position not read. -/
theorem EchoNewDataToHost_remainder_not_read_witness :
    (EchoNewDataToHost 4 3 ⟨0, 0, true, [97, 66, 48, 122], [1, 2, 3, 4], ⟨3, 0⟩, ⟨0, 0⟩⟩
        2 4).2.g_pucUSBTxBuffer =
      (EchoNewDataToHost 4 3 ⟨0, 0, true, [97, 200, 48, 122], [1, 2, 3, 4], ⟨3, 0⟩, ⟨0, 0⟩⟩
        2 4).2.g_pucUSBTxBuffer :=
  (EchoNewDataToHost_remainder_not_read 4 3
    ⟨0, 0, true, [97, 66, 48, 122], [1, 2, 3, 4], ⟨3, 0⟩, ⟨0, 0⟩⟩ [97, 200, 48, 122] 2 4
    (by decide) (by decide) (by decide) (by decide)).1

/-- C12: `EchoNewDataToHost` adds the number of bytes delivered, `N`, to the
receive counter modulo `2 ^ 32`, whatever the transmit space `S` and so whatever
the number of bytes consumed; the transmit counter is not touched. -/
theorem EchoNewDataToHost_rx_count (C S : Nat) (g : Globals) (pcData N : Nat) :
    (EchoNewDataToHost C S g pcData N).2.g_ulRxCount = (g.g_ulRxCount + N) % ULONG_RANGE ∧
    (EchoNewDataToHost C 0 g pcData N).2.g_ulRxCount = (g.g_ulRxCount + N) % ULONG_RANGE ∧
    (EchoNewDataToHost C S g pcData N).2.g_ulTxCount = g.g_ulTxCount :=
  ⟨rfl, rfl, rfl⟩

/-- C13: the count `EchoNewDataToHost` passes to `USBBufferDataWritten` is its
return value, `min N S`, which is also the number of iterations of the loop; the
committed write index is `(w + min N S) mod C` and the read index of the transmit
ring buffer is not touched. -/
theorem EchoNewDataToHost_commits_written (C S : Nat) (g : Globals) (pcData N : Nat) :
    (EchoNewDataToHost C S g pcData N).2.g_sTxBuffer =
      USBBufferDataWritten C g.g_sTxBuffer (EchoNewDataToHost C S g pcData N).1 ∧
    (EchoNewDataToHost C S g pcData N).1 = min N S ∧
    (EchoNewDataToHost C S g pcData N).2.g_pucUSBTxBuffer =
      echoLoop C g.g_pucUSBRxBuffer (min N S) (pcData % ULONG_RANGE)
        g.g_sTxBuffer.ulWriteIndex g.g_pucUSBTxBuffer ∧
    (EchoNewDataToHost C S g pcData N).2.g_sTxBuffer.ulWriteIndex =
      (g.g_sTxBuffer.ulWriteIndex + min N S) % C ∧
    (EchoNewDataToHost C S g pcData N).2.g_sTxBuffer.ulReadIndex =
      g.g_sTxBuffer.ulReadIndex := by
  rw [EchoNewDataToHost_snd, EchoNewDataToHost_fst]
  exact ⟨rfl, rfl, rfl, rfl, rfl⟩

/-- C14: with read index `r` and write index `w` inside buffers of capacity `C`,
delivering `n1` bytes at `r` and then `n2` bytes at `(r + n1) mod C`, each time
with enough transmit space, leaves the globals (transmit array, transmit write
index, counters) exactly as one delivery of `n1 + n2` bytes at `r` does, and the
two return values add up to the return value of the single delivery. -/
theorem EchoNewDataToHost_split (C S1 S2 S : Nat) (g : Globals) (r n1 n2 : Nat)
    (hC : C ≤ ULONG_RANGE) (hr : r < C) (hw : g.g_sTxBuffer.ulWriteIndex < C)
    (hS1 : n1 ≤ S1) (hS2 : n2 ≤ S2) (hS : n1 + n2 ≤ S) :
    (EchoNewDataToHost C S2 (EchoNewDataToHost C S1 g r n1).2 ((r + n1) % C) n2).2 =
      (EchoNewDataToHost C S g r (n1 + n2)).2 ∧
    (EchoNewDataToHost C S1 g r n1).1 +
        (EchoNewDataToHost C S2 (EchoNewDataToHost C S1 g r n1).2 ((r + n1) % C) n2).1 =
      (EchoNewDataToHost C S g r (n1 + n2)).1 := by
  have hC0 : 0 < C := by omega
  have hm1 : min n1 S1 = n1 := by omega
  have hm2 : min n2 S2 = n2 := by omega
  have hm : min (n1 + n2) S = n1 + n2 := by omega
  have hrd : r % ULONG_RANGE = r := Nat.mod_eq_of_lt (by omega)
  have hrd2 : (r + n1) % C % ULONG_RANGE = (r + n1) % C :=
    Nat.mod_eq_of_lt (Nat.lt_of_lt_of_le (Nat.mod_lt _ hC0) hC)
  have hcnt : ((g.g_ulRxCount + n1) % ULONG_RANGE + n2) % ULONG_RANGE =
      (g.g_ulRxCount + (n1 + n2)) % ULONG_RANGE := by
    rw [Nat.mod_add_mod, Nat.add_assoc]
  have hcur : ((g.g_sTxBuffer.ulWriteIndex + n1) % C + n2) % C =
      (g.g_sTxBuffer.ulWriteIndex + (n1 + n2)) % C := by
    rw [Nat.mod_add_mod, Nat.add_assoc]
  constructor
  · rw [EchoNewDataToHost_snd C S2, EchoNewDataToHost_snd C S1, EchoNewDataToHost_snd C S,
      hm1, hm2, hm, hrd, hrd2]
    simp only [USBBufferDataWritten, hcnt, hcur]
    rw [echoLoop_add C g.g_pucUSBRxBuffer hC n1 n2 r g.g_sTxBuffer.ulWriteIndex
      g.g_pucUSBTxBuffer hr hw]
  · rw [EchoNewDataToHost_fst, EchoNewDataToHost_fst, EchoNewDataToHost_fst, hm1, hm2, hm]

/-- Witness of C14: capacity 4, read index 2, write index 3; three bytes and then
two, against five bytes at once (the deliveries cross the end of both arrays). -/
theorem EchoNewDataToHost_split_witness :
    (EchoNewDataToHost 4 2
        (EchoNewDataToHost 4 5 ⟨0, 0, true, [97, 66, 48, 122], [1, 2, 3, 4], ⟨3, 0⟩, ⟨0, 0⟩⟩
          2 3).2 ((2 + 3) % 4) 2).2 =
      (EchoNewDataToHost 4 5 ⟨0, 0, true, [97, 66, 48, 122], [1, 2, 3, 4], ⟨3, 0⟩, ⟨0, 0⟩⟩
        2 (3 + 2)).2 :=
  (EchoNewDataToHost_split 4 5 2 5 ⟨0, 0, true, [97, 66, 48, 122], [1, 2, 3, 4], ⟨3, 0⟩, ⟨0, 0⟩⟩
    2 3 2 (by decide) (by decide) (by decide) (by decide) (by decide) (by decide)).1

/-! ## The bulk channel event handlers -/

theorem RxHandler_connected (e : EventConsts) (C S : Nat) (g : Globals) (v d : Nat) :
    RxHandler e C S g e.USB_EVENT_CONNECTED v d =
      (0, { g with
        g_bUSBConfigured := true
        g_sTxBuffer := USBBufferFlush g.g_sTxBuffer
        g_sRxBuffer := USBBufferFlush g.g_sRxBuffer }) := by
  unfold RxHandler
  rw [if_pos rfl]

theorem RxHandler_disconnected (e : EventConsts) (C S : Nat) (g : Globals) (v d : Nat)
    (h : e.USB_EVENT_DISCONNECTED ≠ e.USB_EVENT_CONNECTED) :
    RxHandler e C S g e.USB_EVENT_DISCONNECTED v d = (0, { g with g_bUSBConfigured := false }) := by
  unfold RxHandler
  rw [if_neg h, if_pos rfl]

theorem RxHandler_rxAvailable (e : EventConsts) (C S : Nat) (g : Globals) (v d : Nat)
    (h1 : e.USB_EVENT_RX_AVAILABLE ≠ e.USB_EVENT_CONNECTED)
    (h2 : e.USB_EVENT_RX_AVAILABLE ≠ e.USB_EVENT_DISCONNECTED) :
    RxHandler e C S g e.USB_EVENT_RX_AVAILABLE v d = EchoNewDataToHost C S g d v := by
  unfold RxHandler
  rw [if_neg h1, if_neg h2, if_pos rfl]

theorem RxHandler_ignored (e : EventConsts) (C S : Nat) (g : Globals) (ev v d : Nat)
    (h1 : ev ≠ e.USB_EVENT_CONNECTED) (h2 : ev ≠ e.USB_EVENT_DISCONNECTED)
    (h3 : ev ≠ e.USB_EVENT_RX_AVAILABLE) :
    RxHandler e C S g ev v d = (0, g) := by
  unfold RxHandler
  rw [if_neg h1, if_neg h2, if_neg h3]
  split <;> rfl

theorem RxHandler_fst_of_ne (e : EventConsts) (C S : Nat) (g : Globals) (ev v d : Nat)
    (h3 : ev ≠ e.USB_EVENT_RX_AVAILABLE) :
    (RxHandler e C S g ev v d).1 = 0 := by
  unfold RxHandler
  split
  · rfl
  · split
    · rfl
    · split
      · rfl
      · rfl

/-- C15: `TxHandler` returns 0 for every event code and message value; `RxHandler`
returns 0 for every event code other than receive-available; for
receive-available (a case label distinct from those of connected and
disconnected) in the connected state `RxHandler` returns `min N S`, the count of
the echo engine. -/
theorem handlers_return_value (e : EventConsts) (C S : Nat) (g : Globals) :
    (∀ ev v, (TxHandler e g ev v).1 = 0) ∧
    (∀ ev v d, ev ≠ e.USB_EVENT_RX_AVAILABLE → (RxHandler e C S g ev v d).1 = 0) ∧
    (e.USB_EVENT_RX_AVAILABLE ≠ e.USB_EVENT_CONNECTED →
      e.USB_EVENT_RX_AVAILABLE ≠ e.USB_EVENT_DISCONNECTED →
      g.g_bUSBConfigured = true →
      ∀ N d, (RxHandler e C S g e.USB_EVENT_RX_AVAILABLE N d).1 = min N S ∧
        (RxHandler e C S g e.USB_EVENT_RX_AVAILABLE N d).1 = (EchoNewDataToHost C S g d N).1) := by
  refine ⟨fun _ _ => rfl, fun ev v d h => RxHandler_fst_of_ne e C S g ev v d h, ?_⟩
  intro h1 h2 _ N d
  rw [RxHandler_rxAvailable e C S g N d h1 h2]
  exact ⟨EchoNewDataToHost_fst C S g d N, rfl⟩

/-- Witness of C15: a suspend event returns 0, and four bytes delivered in the
connected state with room for three return 3. -/
theorem handlers_return_value_witness :
    (RxHandler usblibEvents 4 3 ⟨0, 0, true, [97, 66, 48, 122], [1, 2, 3, 4], ⟨3, 0⟩, ⟨0, 0⟩⟩
        7 0 0).1 = 0 ∧
    (RxHandler usblibEvents 4 3 ⟨0, 0, true, [97, 66, 48, 122], [1, 2, 3, 4], ⟨3, 0⟩, ⟨0, 0⟩⟩
        2 4 2).1 = min 4 3 :=
  ⟨(handlers_return_value usblibEvents 4 3
      ⟨0, 0, true, [97, 66, 48, 122], [1, 2, 3, 4], ⟨3, 0⟩, ⟨0, 0⟩⟩).2.1 7 0 0 (by decide),
   ((handlers_return_value usblibEvents 4 3
      ⟨0, 0, true, [97, 66, 48, 122], [1, 2, 3, 4], ⟨3, 0⟩, ⟨0, 0⟩⟩).2.2
      (by decide) (by decide) rfl 4 2).1⟩

/-- Counterexample to C16: in the disconnected state (`g_bUSBConfigured = false`) a
receive-available event with four bytes at read index 2 and room for three is not
ignored: `RxHandler` returns 3, adds 4 to the receive counter, rewrites three
bytes of the transmit array and moves the write index from 3 to 2. -/
theorem RxHandler_rxAvailable_disconnected_not_ignored :
    (⟨0, 0, false, [97, 66, 48, 122], [1, 2, 3, 4], ⟨3, 0⟩, ⟨0, 0⟩⟩ : Globals).g_bUSBConfigured
      = false ∧
    RxHandler usblibEvents 4 3 ⟨0, 0, false, [97, 66, 48, 122], [1, 2, 3, 4], ⟨3, 0⟩, ⟨0, 0⟩⟩
        usblibEvents.USB_EVENT_RX_AVAILABLE 4 2 =
      (3, ⟨0, 4, false, [97, 66, 48, 122], [90, 65, 3, 48], ⟨2, 0⟩, ⟨0, 0⟩⟩) ∧
    ¬ ((RxHandler usblibEvents 4 3 ⟨0, 0, false, [97, 66, 48, 122], [1, 2, 3, 4], ⟨3, 0⟩, ⟨0, 0⟩⟩
          usblibEvents.USB_EVENT_RX_AVAILABLE 4 2).1 = 0 ∧
       (RxHandler usblibEvents 4 3 ⟨0, 0, false, [97, 66, 48, 122], [1, 2, 3, 4], ⟨3, 0⟩, ⟨0, 0⟩⟩
          usblibEvents.USB_EVENT_RX_AVAILABLE 4 2).2 =
        ⟨0, 0, false, [97, 66, 48, 122], [1, 2, 3, 4], ⟨3, 0⟩, ⟨0, 0⟩⟩) := by
  decide

/-- C16 as amended: `RxHandler` does not consult the connection state; a
receive-available event in the disconnected state runs `EchoNewDataToHost` as it
does in the connected state: the return value is `min N S`, the receive counter
grows by `N` modulo `2 ^ 32`, the transmit array and ring buffer are those the
echo engine leaves, and the transmit counter and the connection state are
unchanged. -/
theorem RxHandler_rxAvailable_disconnected (e : EventConsts) (C S : Nat) (g : Globals)
    (N d : Nat)
    (h1 : e.USB_EVENT_RX_AVAILABLE ≠ e.USB_EVENT_CONNECTED)
    (h2 : e.USB_EVENT_RX_AVAILABLE ≠ e.USB_EVENT_DISCONNECTED)
    (hdis : g.g_bUSBConfigured = false) :
    RxHandler e C S g e.USB_EVENT_RX_AVAILABLE N d = EchoNewDataToHost C S g d N ∧
    (RxHandler e C S g e.USB_EVENT_RX_AVAILABLE N d).1 = min N S ∧
    (RxHandler e C S g e.USB_EVENT_RX_AVAILABLE N d).2.g_ulRxCount =
      (g.g_ulRxCount + N) % ULONG_RANGE ∧
    (RxHandler e C S g e.USB_EVENT_RX_AVAILABLE N d).2.g_pucUSBTxBuffer =
      (RxHandler e C S { g with g_bUSBConfigured := true }
        e.USB_EVENT_RX_AVAILABLE N d).2.g_pucUSBTxBuffer ∧
    (RxHandler e C S g e.USB_EVENT_RX_AVAILABLE N d).2.g_sTxBuffer =
      (RxHandler e C S { g with g_bUSBConfigured := true }
        e.USB_EVENT_RX_AVAILABLE N d).2.g_sTxBuffer ∧
    (RxHandler e C S g e.USB_EVENT_RX_AVAILABLE N d).2.g_ulTxCount = g.g_ulTxCount ∧
    (RxHandler e C S g e.USB_EVENT_RX_AVAILABLE N d).2.g_bUSBConfigured = false := by
  rw [RxHandler_rxAvailable e C S g N d h1 h2, RxHandler_rxAvailable e C S _ N d h1 h2]
  exact ⟨rfl, EchoNewDataToHost_fst C S g d N, rfl, rfl, rfl, rfl, hdis⟩

/-- Witness of the amended C16 at the input of the counterexample. -/
theorem RxHandler_rxAvailable_disconnected_witness :
    (RxHandler usblibEvents 4 3 ⟨0, 0, false, [97, 66, 48, 122], [1, 2, 3, 4], ⟨3, 0⟩, ⟨0, 0⟩⟩
        usblibEvents.USB_EVENT_RX_AVAILABLE 4 2).1 = min 4 3 :=
  (RxHandler_rxAvailable_disconnected usblibEvents 4 3
    ⟨0, 0, false, [97, 66, 48, 122], [1, 2, 3, 4], ⟨3, 0⟩, ⟨0, 0⟩⟩ 4 2
    (by decide) (by decide) rfl).2.1

theorem USBBufferDataAvailable_flush (C : Nat) (b : tUSBRingBufObject) :
    USBBufferDataAvailable C (USBBufferFlush b) = 0 := by
  unfold USBBufferDataAvailable USBBufferFlush
  simp only
  by_cases hC : C = 0
  · subst hC
    simp
  · have hpos : 0 < C := Nat.pos_of_ne_zero hC
    have hlt : b.ulWriteIndex % C < C := Nat.mod_lt _ hpos
    have e : b.ulWriteIndex + C - b.ulWriteIndex % C =
        C + (b.ulWriteIndex / C) * C := by
      have hdiv := Nat.div_add_mod b.ulWriteIndex C
      have hcomm : C * (b.ulWriteIndex / C) = b.ulWriteIndex / C * C := Nat.mul_comm _ _
      omega
    rw [e, Nat.add_mul_mod_self_right, Nat.mod_self]

/-- C17: whatever the indices and contents of the ring buffers, after `RxHandler`
handles a connected event the connection state is connected, the transmit and
the receive ring buffer each report zero unread bytes, and the available space
of each is the full capacity; the return value is 0. -/
theorem RxHandler_connected_flushes (e : EventConsts) (C S : Nat) (g : Globals) (v d : Nat) :
    (RxHandler e C S g e.USB_EVENT_CONNECTED v d).2.g_bUSBConfigured = true ∧
    USBBufferDataAvailable C (RxHandler e C S g e.USB_EVENT_CONNECTED v d).2.g_sTxBuffer = 0 ∧
    USBBufferDataAvailable C (RxHandler e C S g e.USB_EVENT_CONNECTED v d).2.g_sRxBuffer = 0 ∧
    USBBufferSpaceAvailable C (RxHandler e C S g e.USB_EVENT_CONNECTED v d).2.g_sTxBuffer = C ∧
    USBBufferSpaceAvailable C (RxHandler e C S g e.USB_EVENT_CONNECTED v d).2.g_sRxBuffer = C ∧
    (RxHandler e C S g e.USB_EVENT_CONNECTED v d).1 = 0 := by
  rw [RxHandler_connected]
  refine ⟨rfl, USBBufferDataAvailable_flush C _, USBBufferDataAvailable_flush C _, ?_, ?_, rfl⟩
  · unfold USBBufferSpaceAvailable
    rw [USBBufferDataAvailable_flush]
    rfl
  · unfold USBBufferSpaceAvailable
    rw [USBBufferDataAvailable_flush]
    rfl

/-- C18: `TxHandler` adds the message value to the transmit counter modulo
`2 ^ 32` on a transmit-complete event and leaves the transmit counter as it is on
every other event; it never changes the receive counter. -/
theorem TxHandler_counters (e : EventConsts) (g : Globals) (ev v : Nat) :
    (ev = e.USB_EVENT_TX_COMPLETE →
      (TxHandler e g ev v).2.g_ulTxCount = (g.g_ulTxCount + v) % ULONG_RANGE) ∧
    (ev ≠ e.USB_EVENT_TX_COMPLETE → (TxHandler e g ev v).2.g_ulTxCount = g.g_ulTxCount) ∧
    (TxHandler e g ev v).2.g_ulRxCount = g.g_ulRxCount := by
  unfold TxHandler
  refine ⟨fun h => ?_, fun h => ?_, ?_⟩
  · simp only [if_pos h]
  · simp only [if_neg h]
  · simp only
    split <;> rfl

/-- Witness of C18: a transmit-complete event with message value 3 takes the
counter from `2 ^ 32 - 1` to 2; a resume event leaves it. -/
theorem TxHandler_counters_witness :
    (TxHandler usblibEvents ⟨4294967295, 9, true, [], [], ⟨0, 0⟩, ⟨0, 0⟩⟩ 5 3).2.g_ulTxCount
      = (4294967295 + 3) % ULONG_RANGE ∧
    (TxHandler usblibEvents ⟨4294967295, 9, true, [], [], ⟨0, 0⟩, ⟨0, 0⟩⟩ 8 3).2.g_ulTxCount
      = 4294967295 :=
  ⟨(TxHandler_counters usblibEvents ⟨4294967295, 9, true, [], [], ⟨0, 0⟩, ⟨0, 0⟩⟩ 5 3).1 rfl,
   (TxHandler_counters usblibEvents ⟨4294967295, 9, true, [], [], ⟨0, 0⟩, ⟨0, 0⟩⟩ 8 3).2.1
     (by decide)⟩

theorem TxHandler_configured (e : EventConsts) (g : Globals) (ev v : Nat) :
    (TxHandler e g ev v).2.g_bUSBConfigured = g.g_bUSBConfigured := by
  unfold TxHandler
  simp only
  split <;> rfl

theorem RxHandler_configured_of_ne (e : EventConsts) (C S : Nat) (g : Globals) (ev v d : Nat)
    (h1 : ev ≠ e.USB_EVENT_CONNECTED) (h2 : ev ≠ e.USB_EVENT_DISCONNECTED) :
    (RxHandler e C S g ev v d).2.g_bUSBConfigured = g.g_bUSBConfigured := by
  by_cases h3 : ev = e.USB_EVENT_RX_AVAILABLE
  · subst h3
    rw [RxHandler_rxAvailable e C S g v d h1 h2]
    rfl
  · rw [RxHandler_ignored e C S g ev v d h1 h2 h3]

/-- C19: `RxHandler` sets the connection state to connected on a connected event
and to disconnected on a disconnected event (a case label distinct from that of
connected); on every other event code `RxHandler` leaves the connection state as
it was, and so does `TxHandler` on every event code. -/
theorem connection_state_transitions (e : EventConsts) (C S : Nat) (g : Globals) :
    (∀ v d, (RxHandler e C S g e.USB_EVENT_CONNECTED v d).2.g_bUSBConfigured = true) ∧
    (e.USB_EVENT_DISCONNECTED ≠ e.USB_EVENT_CONNECTED →
      ∀ v d, (RxHandler e C S g e.USB_EVENT_DISCONNECTED v d).2.g_bUSBConfigured = false) ∧
    (∀ ev v d, ev ≠ e.USB_EVENT_CONNECTED → ev ≠ e.USB_EVENT_DISCONNECTED →
      (RxHandler e C S g ev v d).2.g_bUSBConfigured = g.g_bUSBConfigured) ∧
    (∀ ev v, (TxHandler e g ev v).2.g_bUSBConfigured = g.g_bUSBConfigured) := by
  refine ⟨fun v d => ?_, fun h v d => ?_,
    fun ev v d h1 h2 => RxHandler_configured_of_ne e C S g ev v d h1 h2,
    fun ev v => TxHandler_configured e g ev v⟩
  · rw [RxHandler_connected]
  · rw [RxHandler_disconnected e C S g v d h]

/-- Witness of C19: in the connected state a disconnected event clears the flag
and a receive-available event leaves it set. -/
theorem connection_state_transitions_witness :
    (RxHandler usblibEvents 4 3 ⟨0, 0, true, [97, 66, 48, 122], [1, 2, 3, 4], ⟨3, 0⟩, ⟨0, 0⟩⟩
        usblibEvents.USB_EVENT_DISCONNECTED 0 0).2.g_bUSBConfigured = false ∧
    (RxHandler usblibEvents 4 3 ⟨0, 0, true, [97, 66, 48, 122], [1, 2, 3, 4], ⟨3, 0⟩, ⟨0, 0⟩⟩
        2 4 2).2.g_bUSBConfigured = true :=
  ⟨(connection_state_transitions usblibEvents 4 3
      ⟨0, 0, true, [97, 66, 48, 122], [1, 2, 3, 4], ⟨3, 0⟩, ⟨0, 0⟩⟩).2.1 (by decide) 0 0,
   (connection_state_transitions usblibEvents 4 3
      ⟨0, 0, true, [97, 66, 48, 122], [1, 2, 3, 4], ⟨3, 0⟩, ⟨0, 0⟩⟩).2.2.1 2 4 2
      (by decide) (by decide)⟩

/-! ## Order of the endpoint 0 calls -/

/-- What `VendorRequestHandler` does after the acknowledge: one send when a payload
was selected, one stall otherwise. -/
theorem VendorRequestHandler_shape (k : RTypeConsts) (q : tUSBRequest) :
    ∃ rest, VendorRequestHandler k q = EP0Action.USBDevEndpointDataAck :: rest ∧
      (rest = [EP0Action.USBDCDStallEP0] ∨
        ∃ pucData ulSize, rest = [EP0Action.USBDCDSendDataEP0 pucData ulSize]) := by
  unfold VendorRequestHandler
  simp only
  cases (DispatchVendorRequest k q none 0).1 with
  | none => exact ⟨_, rfl, Or.inl rfl⟩
  | some buf =>
      by_cases hn : (DispatchVendorRequest k q none 0).2 ≠ 0
      · refine ⟨_, rfl, Or.inr ?_⟩
        simp only [if_pos hn, SendEP0Data_eq]
        exact ⟨_, _, rfl⟩
      · refine ⟨_, rfl, Or.inl ?_⟩
        simp only [if_neg hn]

/-- The steps of `VendorRequestHandler` are three: the acknowledge, the call of
`DispatchVendorRequest`, and one send or one stall; its endpoint 0 trace is the
acknowledge followed by that send or stall. -/
theorem VendorRequestHandlerSteps_shape (k : RTypeConsts) (q : tUSBRequest) :
    ∃ resp, (resp = EP0Action.USBDCDStallEP0 ∨
        ∃ pucData ulSize, resp = EP0Action.USBDCDSendDataEP0 pucData ulSize) ∧
      VendorRequestHandlerSteps k q =
        [HandlerStep.ep0 EP0Action.USBDevEndpointDataAck,
         HandlerStep.DispatchVendorRequest (DispatchVendorRequest k q none 0).1
           (DispatchVendorRequest k q none 0).2,
         HandlerStep.ep0 resp] ∧
      VendorRequestHandler k q = [EP0Action.USBDevEndpointDataAck, resp] := by
  unfold VendorRequestHandlerSteps VendorRequestHandler
  simp only
  cases (DispatchVendorRequest k q none 0).1 with
  | none => exact ⟨_, Or.inl rfl, rfl, rfl⟩
  | some buf =>
      by_cases hn : (DispatchVendorRequest k q none 0).2 ≠ 0
      · simp only [if_pos hn, SendEP0Data_eq]
        exact ⟨_, Or.inr ⟨_, _, rfl⟩, rfl, rfl⟩
      · simp only [if_neg hn]
        exact ⟨_, Or.inl rfl, rfl, rfl⟩

/-- C20: for every request, recognised or not, the steps of `VendorRequestHandler`
are, in this order, the data-stage acknowledge, the call of
`DispatchVendorRequest` that selects the payload, and one send or one stall: the
acknowledge comes first, occurs exactly once, and precedes both the selection of
the payload and the send or stall.  The endpoint 0 calls among these steps are
the trace of `VendorRequestHandler`, which therefore starts with the acknowledge
and continues with a single send or a single stall. -/
theorem VendorRequestHandler_ack_first (k : RTypeConsts) (q : tUSBRequest) :
    (VendorRequestHandler k q).head? = some EP0Action.USBDevEndpointDataAck ∧
    (VendorRequestHandler k q).count EP0Action.USBDevEndpointDataAck = 1 ∧
    EP0Action.USBDevEndpointDataAck ∉ (VendorRequestHandler k q).tail ∧
    ((VendorRequestHandler k q).tail = [EP0Action.USBDCDStallEP0] ∨
      ∃ pucData ulSize,
        (VendorRequestHandler k q).tail = [EP0Action.USBDCDSendDataEP0 pucData ulSize]) ∧
    ep0Calls (VendorRequestHandlerSteps k q) = VendorRequestHandler k q ∧
    (∃ resp, (resp = EP0Action.USBDCDStallEP0 ∨
        ∃ pucData ulSize, resp = EP0Action.USBDCDSendDataEP0 pucData ulSize) ∧
      VendorRequestHandlerSteps k q =
        [HandlerStep.ep0 EP0Action.USBDevEndpointDataAck,
         HandlerStep.DispatchVendorRequest (DispatchVendorRequest k q none 0).1
           (DispatchVendorRequest k q none 0).2,
         HandlerStep.ep0 resp]) ∧
    (VendorRequestHandlerSteps k q).count (HandlerStep.ep0 EP0Action.USBDevEndpointDataAck)
      = 1 := by
  obtain ⟨resp, hresp, hsteps, htrace⟩ := VendorRequestHandlerSteps_shape k q
  rw [hsteps, htrace]
  rcases hresp with hr | ⟨pucData, ulSize, hr⟩
  · subst hr
    refine ⟨rfl, by decide, by decide, Or.inl rfl, rfl, ⟨_, Or.inl rfl, rfl⟩, ?_⟩
    simp [List.count_cons]
  · subst hr
    refine ⟨rfl, ?_, ?_, Or.inr ⟨pucData, ulSize, rfl⟩, rfl,
      ⟨_, Or.inr ⟨pucData, ulSize, rfl⟩, rfl⟩, ?_⟩
    · simp
    · simp
    · simp [List.count_cons]

end UsbDevBulk

namespace UsbDevBulk

/-! ## The string descriptor handler and the vendor code -/

theorem GetStringDescriptorHandler_send (q : tUSBRequest) (h : q.wValue % 256 = 0xEE) :
    GetStringDescriptorHandler q =
      [EP0Action.USBDCDSendDataEP0 abyOsDescriptor (min q.wLength 18)] := by
  unfold GetStringDescriptorHandler
  rw [and_0xFF, if_neg (show ¬ (q.wValue % 256 ≠ MS_OS_STRING_DESCRIPTOR) from
    not_not.mpr h), SendEP0Data_eq, abyOsDescriptor_length]

theorem GetStringDescriptorHandler_stall (q : tUSBRequest) (h : q.wValue % 256 ≠ 0xEE) :
    GetStringDescriptorHandler q = [EP0Action.USBDCDStallEP0] := by
  unfold GetStringDescriptorHandler
  rw [and_0xFF, if_pos (show q.wValue % 256 ≠ MS_OS_STRING_DESCRIPTOR from h)]

theorem GetStringDescriptorHandler_shape (q : tUSBRequest) :
    GetStringDescriptorHandler q = [EP0Action.USBDCDStallEP0] ∨
    GetStringDescriptorHandler q =
      [EP0Action.USBDCDSendDataEP0 abyOsDescriptor (min q.wLength 18)] := by
  by_cases h : q.wValue % 256 = 0xEE
  · exact Or.inr (GetStringDescriptorHandler_send q h)
  · exact Or.inl (GetStringDescriptorHandler_stall q h)

theorem abyOsDescriptor_vendor_code : abyOsDescriptor.getD 16 0 = 7 := by decide

theorem DispatchVendorRequest_selects_iff (k : RTypeConsts) (q : tUSBRequest)
    (htype : q.bmRequestType &&& k.USB_RTYPE_TYPE_M = k.USB_RTYPE_VENDOR)
    (hsel : (q.wIndex = 4 ∧ q.bmRequestType &&& k.USB_RTYPE_RECIPIENT_M = k.USB_RTYPE_DEVICE) ∨
      (q.wIndex = 5 ∧ q.bmRequestType &&& k.USB_RTYPE_RECIPIENT_M = k.USB_RTYPE_INTERFACE)) :
    (DispatchVendorRequest k q none 0).1.isSome = true ↔ q.bRequest = 7 := by
  constructor
  · intro h
    by_contra hne
    have hnot : ¬ recognised k q := fun hr => hne hr.2.1
    rw [DispatchVendorRequest_unrecognised k q none 0 hnot] at h
    exact absurd h (by decide)
  · intro h7
    rcases hsel with ⟨hidx, hrec⟩ | ⟨hidx, hrec⟩
    · rw [DispatchVendorRequest_compatibleId k q none 0 htype hrec h7 hidx]
      rfl
    · rw [DispatchVendorRequest_extendedProperties k q none 0 htype hrec h7 hidx]
      rfl

/-- C22: for a vendor request with index 4 to the device or index 5 to an
interface, `DispatchVendorRequest` selects a payload if and only if the request
code equals byte 16 of the 18-byte descriptor that `GetStringDescriptorHandler`
sends for index `0xEE`; that byte is 7. -/
theorem vendor_code_advertised_is_accepted (k : RTypeConsts) (q sreq : tUSBRequest)
    (htype : q.bmRequestType &&& k.USB_RTYPE_TYPE_M = k.USB_RTYPE_VENDOR)
    (hsel : (q.wIndex = 4 ∧ q.bmRequestType &&& k.USB_RTYPE_RECIPIENT_M = k.USB_RTYPE_DEVICE) ∨
      (q.wIndex = 5 ∧ q.bmRequestType &&& k.USB_RTYPE_RECIPIENT_M = k.USB_RTYPE_INTERFACE))
    (hs : sreq.wValue % 256 = 0xEE) (hlen : 18 ≤ sreq.wLength) :
    ∃ d, sentData (GetStringDescriptorHandler sreq) = [d] ∧ d.length = 18 ∧
      d.getD 16 0 = 7 ∧
      ((DispatchVendorRequest k q none 0).1.isSome = true ↔ q.bRequest = d.getD 16 0) := by
  have hmin : min sreq.wLength 18 = 18 := by omega
  refine ⟨abyOsDescriptor, ?_, abyOsDescriptor_length, abyOsDescriptor_vendor_code, ?_⟩
  · rw [GetStringDescriptorHandler_send sreq hs, hmin]
    rfl
  · rw [abyOsDescriptor_vendor_code]
    exact DispatchVendorRequest_selects_iff k q htype hsel

/-- Witness of C22: request code 7 with index 4 to the device selects a payload,
and 7 is byte 16 of the descriptor sent for `wValue = 0x03EE`. -/
theorem vendor_code_advertised_is_accepted_witness :
    ∃ d, sentData (GetStringDescriptorHandler ⟨0x80, 6, 0x03EE, 0, 255⟩) = [d] ∧
      d.length = 18 ∧ d.getD 16 0 = 7 ∧
      ((DispatchVendorRequest usb20 ⟨0xC0, 7, 0, 4, 64⟩ none 0).1.isSome = true ↔
        (⟨0xC0, 7, 0, 4, 64⟩ : tUSBRequest).bRequest = d.getD 16 0) :=
  vendor_code_advertised_is_accepted usb20 ⟨0xC0, 7, 0, 4, 64⟩ ⟨0x80, 6, 0x03EE, 0, 255⟩
    (by decide) (Or.inl ⟨rfl, by decide⟩) (by decide) (by decide)

/-! ## Length fields of the descriptor tables -/

theorem abyCIDFDesc_length : abyCIDFDesc.length = 40 := by decide

theorem abyOsDescriptor_length_field :
    abyOsDescriptor.getD 0 0 = abyOsDescriptor.length ∧ abyOsDescriptor.length = 18 := by
  decide

theorem abyCIDFDesc_length_field :
    rd32 abyCIDFDesc 0 = abyCIDFDesc.length ∧ abyCIDFDesc.length = 40 := by
  decide

set_option maxRecDepth 8000 in
theorem abyEPFDesc_length_fields :
    rd32 abyEPFDesc 0 = abyEPFDesc.length ∧ abyEPFDesc.length = 146 ∧
    rd32 abyEPFDesc 10 = abyEPFDesc.length - 10 ∧ rd32 abyEPFDesc 10 = 136 ∧
    rd16 abyEPFDesc 18 = 42 ∧ rd32 abyEPFDesc 62 = 80 := by
  decide

set_option maxRecDepth 8000 in
theorem abyEPFDesc_name :
    slice abyEPFDesc 20 (rd16 abyEPFDesc 18) = utf16le "DeviceInterfaceGUIDs" ++ [0, 0] ∧
    (utf16le "DeviceInterfaceGUIDs" ++ [0, 0]).length = rd16 abyEPFDesc 18 := by
  decide

set_option maxRecDepth 8000 in
theorem abyEPFDesc_data :
    slice abyEPFDesc 66 (rd32 abyEPFDesc 62) =
      utf16le "\x7b6E45736A-2B1B-4078-B772-B3AF2B6FDE1C\x7d" ++ [0, 0, 0, 0] ∧
    (utf16le "\x7b6E45736A-2B1B-4078-B772-B3AF2B6FDE1C\x7d" ++ [0, 0, 0, 0]).length =
      rd32 abyEPFDesc 62 ∧
    66 + rd32 abyEPFDesc 62 = abyEPFDesc.length := by
  decide

theorem VendorRequestHandler_of_selected (k : RTypeConsts) (q : tUSBRequest)
    (buf : List Nat) (n : Nat) (hn : n ≠ 0)
    (h : DispatchVendorRequest k q none 0 = (some buf, n)) :
    VendorRequestHandler k q = EP0Action.USBDevEndpointDataAck :: SendEP0Data buf n q := by
  unfold VendorRequestHandler
  rw [h]
  simp only [if_pos hn]

/-- C23: the length fields stored in the three descriptor tables equal the sizes
of the tables and of their parts (18; 40; 146, 136 = 146 - 10, 42 for the
null-terminated name, 80 for the GUID string with its double null), and the
length the handlers pass to `SendEP0Data` with each table is the size of that
table. -/
theorem descriptor_length_fields (k : RTypeConsts) (q : tUSBRequest) :
    (abyOsDescriptor.getD 0 0 = abyOsDescriptor.length ∧ abyOsDescriptor.length = 18) ∧
    (rd32 abyCIDFDesc 0 = abyCIDFDesc.length ∧ abyCIDFDesc.length = 40) ∧
    (rd32 abyEPFDesc 0 = abyEPFDesc.length ∧ abyEPFDesc.length = 146 ∧
      rd32 abyEPFDesc 10 = abyEPFDesc.length - 10 ∧ rd32 abyEPFDesc 10 = 136 ∧
      rd16 abyEPFDesc 18 = 42 ∧ rd32 abyEPFDesc 62 = 80) ∧
    (slice abyEPFDesc 20 (rd16 abyEPFDesc 18) = utf16le "DeviceInterfaceGUIDs" ++ [0, 0] ∧
      (utf16le "DeviceInterfaceGUIDs" ++ [0, 0]).length = rd16 abyEPFDesc 18) ∧
    (slice abyEPFDesc 66 (rd32 abyEPFDesc 62) =
        utf16le "\x7b6E45736A-2B1B-4078-B772-B3AF2B6FDE1C\x7d" ++ [0, 0, 0, 0] ∧
      (utf16le "\x7b6E45736A-2B1B-4078-B772-B3AF2B6FDE1C\x7d" ++ [0, 0, 0, 0]).length =
        rd32 abyEPFDesc 62 ∧
      66 + rd32 abyEPFDesc 62 = abyEPFDesc.length) ∧
    (q.wValue % 256 = 0xEE →
      GetStringDescriptorHandler q =
        SendEP0Data abyOsDescriptor abyOsDescriptor.length q) ∧
    (q.bmRequestType &&& k.USB_RTYPE_TYPE_M = k.USB_RTYPE_VENDOR → q.bRequest = 7 →
      q.wIndex = 4 → q.bmRequestType &&& k.USB_RTYPE_RECIPIENT_M = k.USB_RTYPE_DEVICE →
      VendorRequestHandler k q =
        EP0Action.USBDevEndpointDataAck :: SendEP0Data abyCIDFDesc abyCIDFDesc.length q) ∧
    (q.bmRequestType &&& k.USB_RTYPE_TYPE_M = k.USB_RTYPE_VENDOR → q.bRequest = 7 →
      q.wIndex = 5 → q.bmRequestType &&& k.USB_RTYPE_RECIPIENT_M = k.USB_RTYPE_INTERFACE →
      VendorRequestHandler k q =
        EP0Action.USBDevEndpointDataAck :: SendEP0Data abyEPFDesc abyEPFDesc.length q) := by
  refine ⟨abyOsDescriptor_length_field, abyCIDFDesc_length_field, abyEPFDesc_length_fields,
    abyEPFDesc_name, abyEPFDesc_data, ?_, ?_, ?_⟩
  · intro h
    unfold GetStringDescriptorHandler
    rw [and_0xFF, if_neg (show ¬ (q.wValue % 256 ≠ MS_OS_STRING_DESCRIPTOR) from
      not_not.mpr h)]
  · intro htype hreq hidx hrec
    rw [abyCIDFDesc_length]
    exact VendorRequestHandler_of_selected k q abyCIDFDesc 40 (by decide)
      (DispatchVendorRequest_compatibleId k q none 0 htype hrec hreq hidx)
  · intro htype hreq hidx hrec
    rw [abyEPFDesc_length]
    exact VendorRequestHandler_of_selected k q abyEPFDesc 146 (by decide)
      (DispatchVendorRequest_extendedProperties k q none 0 htype hrec hreq hidx)

/-- Witness of C23: the request for the Compatible ID descriptor hands
`SendEP0Data` the table with its 40 bytes as length. -/
theorem descriptor_length_fields_witness :
    VendorRequestHandler usb20 ⟨0xC0, 7, 0, 4, 64⟩ =
      EP0Action.USBDevEndpointDataAck ::
        SendEP0Data abyCIDFDesc abyCIDFDesc.length ⟨0xC0, 7, 0, 4, 64⟩ :=
  (descriptor_length_fields usb20 ⟨0xC0, 7, 0, 4, 64⟩).2.2.2.2.2.2.1
    (by decide) rfl rfl (by decide)

/-! ## The USB version patch -/

theorem getD_set_set_2 (l : List Nat) (a b : Nat) (h : 4 ≤ l.length) :
    ((l.set 2 a).set 3 b).getD 2 0 = a := by
  rw [getD_set_ne _ 3 2 b (by decide)]
  exact getD_set_self l 2 a (by omega)

theorem getD_set_set_3 (l : List Nat) (a b : Nat) (h : 4 ≤ l.length) :
    ((l.set 2 a).set 3 b).getD 3 0 = b :=
  getD_set_self (l.set 2 a) 3 b (by rw [List.length_set]; omega)

theorem getD_set_set_other (l : List Nat) (a b i : Nat) (h2 : i ≠ 2) (h3 : i ≠ 3) :
    ((l.set 2 a).set 3 b).getD i 0 = l.getD i 0 := by
  rw [getD_set_ne _ 3 i b h3, getD_set_ne _ 2 i a h2]

theorem set_set_idem (l : List Nat) (a b : Nat) :
    ((((l.set 2 a).set 3 b).set 2 a).set 3 b) = (l.set 2 a).set 3 b := by
  apply List.ext_getElem?
  intro i
  simp only [List.getElem?_set, List.length_set]
  by_cases h3 : 3 = i
  · simp [h3]
  · by_cases h2 : 2 = i
    · simp [h2]
    · simp [h2, h3]

/-- C24: for a device descriptor of at least 4 bytes, after `ConfigureUsb200` the
little-endian 16-bit field at offset 2 reads `0x0200` (byte 2 is `0x00`, byte 3
is `0x02`), every other byte and the length are unchanged, the callbacks are
untouched, patching twice equals patching once, and the descriptor left by
`ConfigureAutoWinUsbInstall` is the patched one. -/
theorem ConfigureUsb200_patch (d : tDeviceInfo) (h : 4 ≤ d.pDeviceDescriptor.length) :
    rd16 (ConfigureUsb200 d).pDeviceDescriptor 2 = 0x0200 ∧
    (ConfigureUsb200 d).pDeviceDescriptor.getD 2 0 = 0x00 ∧
    (ConfigureUsb200 d).pDeviceDescriptor.getD 3 0 = 0x02 ∧
    (∀ i, i ≠ 2 → i ≠ 3 →
      (ConfigureUsb200 d).pDeviceDescriptor.getD i 0 = d.pDeviceDescriptor.getD i 0) ∧
    (ConfigureUsb200 d).pDeviceDescriptor.length = d.pDeviceDescriptor.length ∧
    (ConfigureUsb200 d).pfnRequestHandler = d.pfnRequestHandler ∧
    (ConfigureUsb200 d).pfnGetStringDescriptor = d.pfnGetStringDescriptor ∧
    ConfigureUsb200 (ConfigureUsb200 d) = ConfigureUsb200 d ∧
    (ConfigureAutoWinUsbInstall d).pDeviceDescriptor = (ConfigureUsb200 d).pDeviceDescriptor := by
  have h2 : (ConfigureUsb200 d).pDeviceDescriptor.getD 2 0 = 0 :=
    getD_set_set_2 d.pDeviceDescriptor _ _ h
  have h3 : (ConfigureUsb200 d).pDeviceDescriptor.getD 3 0 = 2 :=
    getD_set_set_3 d.pDeviceDescriptor _ _ h
  refine ⟨?_, h2, h3, ?_, ?_, rfl, rfl, ?_, rfl⟩
  · unfold rd16
    rw [h2, h3]
  · intro i hi2 hi3
    exact getD_set_set_other d.pDeviceDescriptor _ _ i hi2 hi3
  · unfold ConfigureUsb200
    simp only [List.length_set]
  · unfold ConfigureUsb200
    simp only [set_set_idem]

/-- Witness of C24: an 18-byte device descriptor announcing USB 1.10. -/
theorem ConfigureUsb200_patch_witness :
    rd16 (ConfigureUsb200
      ⟨[18, 1, 0x10, 0x01, 0xFF, 0, 0, 64, 0xBE, 0x1C, 3, 0, 0, 1, 1, 2, 3, 1],
        .null, .null⟩).pDeviceDescriptor 2 = 0x0200 :=
  (ConfigureUsb200_patch
    ⟨[18, 1, 0x10, 0x01, 0xFF, 0, 0, 64, 0xBE, 0x1C, 3, 0, 0, 1, 1, 2, 3, 1], .null, .null⟩
    (by decide)).1

/-! ## One response per control request -/

/-- C25: for every request `VendorRequestHandler` makes exactly one send or stall
call and never both, and so does `GetStringDescriptorHandler`; a recognised
request with `wLength = 0` is answered with a send of zero bytes and no stall. -/
theorem one_response_per_request (k : RTypeConsts) (q : tUSBRequest) :
    ((VendorRequestHandler k q).filter EP0Action.isResponse).length = 1 ∧
    ¬ ((VendorRequestHandler k q).any EP0Action.isSend = true ∧
        EP0Action.USBDCDStallEP0 ∈ VendorRequestHandler k q) ∧
    ((GetStringDescriptorHandler q).filter EP0Action.isResponse).length = 1 ∧
    ¬ ((GetStringDescriptorHandler q).any EP0Action.isSend = true ∧
        EP0Action.USBDCDStallEP0 ∈ GetStringDescriptorHandler q) ∧
    (recognised k q → q.wLength = 0 →
      (∃ pucData, VendorRequestHandler k q =
        [EP0Action.USBDevEndpointDataAck, EP0Action.USBDCDSendDataEP0 pucData 0]) ∧
      sentData (VendorRequestHandler k q) = [[]] ∧
      EP0Action.USBDCDStallEP0 ∉ VendorRequestHandler k q) ∧
    (q.wValue % 256 = 0xEE → q.wLength = 0 →
      GetStringDescriptorHandler q = [EP0Action.USBDCDSendDataEP0 abyOsDescriptor 0] ∧
      sentData (GetStringDescriptorHandler q) = [[]] ∧
      EP0Action.USBDCDStallEP0 ∉ GetStringDescriptorHandler q) := by
  refine ⟨?_, ?_, ?_, ?_, ?_, ?_⟩
  · obtain ⟨rest, h, hrest⟩ := VendorRequestHandler_shape k q
    rw [h]
    rcases hrest with hr | ⟨pucData, ulSize, hr⟩ <;> subst hr <;> rfl
  · obtain ⟨rest, h, hrest⟩ := VendorRequestHandler_shape k q
    rw [h]
    rcases hrest with hr | ⟨pucData, ulSize, hr⟩ <;> subst hr
    · intro hboth
      exact absurd hboth.1 (by decide)
    · intro hboth
      have := hboth.2
      simp at this
  · rcases GetStringDescriptorHandler_shape q with h | h <;> rw [h] <;> rfl
  · rcases GetStringDescriptorHandler_shape q with h | h <;> rw [h]
    · intro hboth
      exact absurd hboth.1 (by decide)
    · intro hboth
      have := hboth.2
      simp at this
  · intro hrec hlen
    obtain ⟨htype, hreq, hsel⟩ := hrec
    have hmin : ∀ n, min q.wLength n = 0 := fun n => by omega
    rcases hsel with ⟨hidx, hr⟩ | ⟨hidx, hr⟩
    · have ht : VendorRequestHandler k q =
          [EP0Action.USBDevEndpointDataAck, EP0Action.USBDCDSendDataEP0 abyCIDFDesc 0] := by
        rw [VendorRequestHandler_of_selected k q abyCIDFDesc 40 (by decide)
          (DispatchVendorRequest_compatibleId k q none 0 htype hr hreq hidx),
          SendEP0Data_eq, hmin]
      rw [ht]
      exact ⟨⟨_, rfl⟩, rfl, by decide⟩
    · have ht : VendorRequestHandler k q =
          [EP0Action.USBDevEndpointDataAck, EP0Action.USBDCDSendDataEP0 abyEPFDesc 0] := by
        rw [VendorRequestHandler_of_selected k q abyEPFDesc 146 (by decide)
          (DispatchVendorRequest_extendedProperties k q none 0 htype hr hreq hidx),
          SendEP0Data_eq, hmin]
      rw [ht]
      refine ⟨⟨_, rfl⟩, rfl, ?_⟩
      simp
  · intro hs hlen
    have ht : GetStringDescriptorHandler q =
        [EP0Action.USBDCDSendDataEP0 abyOsDescriptor 0] := by
      rw [GetStringDescriptorHandler_send q hs, hlen]
      rfl
    rw [ht]
    exact ⟨rfl, rfl, by decide⟩

/-- Witness of C25: the Compatible ID request with `wLength = 0`. -/
theorem one_response_per_request_witness :
    sentData (VendorRequestHandler usb20 ⟨0xC0, 7, 0, 4, 0⟩) = [[]] ∧
    EP0Action.USBDCDStallEP0 ∉ VendorRequestHandler usb20 ⟨0xC0, 7, 0, 4, 0⟩ :=
  ((one_response_per_request usb20 ⟨0xC0, 7, 0, 4, 0⟩).2.2.2.2.1 (by decide) rfl).2

end UsbDevBulk
